import Mathlib

/-!
Shallow embedding of the AETROS streaming client (`aetros/client.py`):
the `BackendClient` / `JobClient` connection state machine, per-channel
outbound queues, the writer loop, the handshake, and message dispatch.

Modelling conventions:
* Python dicts keyed by channel name become association lists (`Dict`);
  a raw subscript `d[k]` that can raise `KeyError` is embedded as a
  `match` on `dget` that produces `PyErr.keyError` when the key is absent,
  while `is_connected` / `is_registered` (which test membership first)
  use `dget … |>.getD false`.
* Byte strings are `List Nat`.  msgpack serialization of raw dict
  messages (`msgpack.packb(message)`) is abstracted to the byte rendering
  of the message's `type` tag; no claim inspects those bytes beyond their
  position in the transport trace.
* Transport writes append `(channel, chunk)` pairs to a trace field
  `writes`; a scheduled write failure is injected through an
  `Option Nat` parameter (`failAt`) giving the index of the chunk whose
  `write` call raises, mirroring a transport exception.
* Exceptions are `Except` values carrying the state at the raise point.
  `SystemExit` (from `sys.exit`) is not a Python `Exception`, so the
  generic `except Exception` handler in `connect` does not catch it.
* Threads are sequentialized: one writer-loop iteration is a function of
  the state, and the loop is fuel-indexed.  Blocking reads and sleeps
  are dropped; the values they would deliver are parameters.
-/

namespace Aetros

/-- Byte strings. -/
abbrev Bytes := List Nat

/-- Python dicts with string keys, as association lists. -/
abbrev Dict (α : Type) := List (String × α)

/-- Dictionary lookup: `some v` when the key is present. -/
def dget {α : Type} (d : Dict α) (k : String) : Option α :=
  (d.find? (fun p => p.1 == k)).map (fun p => p.2)

/-- Dictionary assignment `d[k] = v`. -/
def dset {α : Type} (d : Dict α) (k : String) (v : α) : Dict α :=
  (k, v) :: d.filter (fun p => !(p.1 == k))

/-- Whether the first list is a leading segment of the second. -/
def begins_with : List Char → List Char → Bool
  | [], _ => true
  | _ :: _, [] => false
  | a :: as, b :: bs => (a == b) && begins_with as bs

/-- Whether `needle` occurs contiguously inside the second list. -/
def sub_search (needle : List Char) : List Char → Bool
  | [] => needle.isEmpty
  | b :: bs => begins_with needle (b :: bs) || sub_search needle bs

/-- Python `needle in hay` on strings. -/
def strContains (hay needle : String) : Bool :=
  sub_search needle.toList hay.toList

/-- Events fired on the event listener (`self.event_listener.fire(...)`). -/
inductive Event
  | offline
  | disconnect
  | close
  | registration
  | registration_failed (reason : String)
  | aborted
  | stop (force : Bool)
  | parameter_changed (values : Nat)
  | action
deriving DecidableEq, Repr

/-- Python exceptions relevant to the client.  `systemExit` models
`sys.exit` (class `SystemExit`, not a subclass of `Exception`). -/
inductive PyErr
  | typeError
  | keyError
  | systemExit (code : Nat)
  | exc (msg : String)
deriving DecidableEq, Repr

/-- Whether the error is caught by a generic `except Exception` handler. -/
def py_is_exception : PyErr → Bool
  | PyErr.systemExit _ => false
  | _ => true

/-- An outbound message dict.  Queue entries built by `send` carry
`_data`/`_total`; raw dicts (the `end` marker, the registration request)
have `_data = none` and are serialized when transmitted. -/
structure PyMsg where
  _id : Nat := 0
  typ : Option String := none
  _data : Option Bytes := none
  _total : Nat := 0
  _sending : Bool := false
  _sent : Bool := false
deriving DecidableEq, Repr

/-- Decoded inbound messages: a keyed record (dict) with the fields the
client ever reads, or a non-dict value. -/
inductive InMsg
  | dict (a : Option String) (force : Option Bool) (reason : Option String)
      (values : Option Nat) (typ : Option String)
  | nondict
deriving DecidableEq, Repr

/-- State of one `BackendClient`/`JobClient`.  Field defaults mirror
`BackendClient.__init__`.  `channels` lists the channel names opened by
`start` (the key set of `ssh_stream_stdouts`); `writes` is the transport
write trace; `log_errors`/`log_warnings` count `logger.error` /
`logger.warning` calls. -/
structure Client where
  online : Bool := true
  active : Bool := false
  expect_close : Bool := false
  external_stopped : Bool := false
  stop_on_empty_queue : Bool := false
  go_offline_on_first_failed_attempt : Bool := true
  in_connecting : Bool := false
  connection_tries : Nat := 0
  connection_errors : Nat := 0
  message_id : Nat := 0
  connected : Dict Bool := []
  registered : Dict Bool := []
  was_connected_once : Dict Bool := []
  ssh_stream : Dict Bool := []
  queues : Dict (List PyMsg) := []
  channels : List String := []
  events : List Event := []
  writes : List (String × Bytes) := []
  log_errors : Nat := 0
  log_warnings : Nat := 0
deriving DecidableEq, Repr

/-- `BackendClient.is_connected`. -/
def is_connected (s : Client) (channel : String) : Bool :=
  (dget s.connected channel).getD false

/-- `BackendClient.is_registered`. -/
def is_registered (s : Client) (channel : String) : Bool :=
  (dget s.registered channel).getD false

/-- The queue of one channel (`self.queues[channel]`, defaulting to `[]`
for absent channels; every modelled run keeps the channel present). -/
def qget (s : Client) (channel : String) : List PyMsg :=
  (dget s.queues channel).getD []

/-- `BackendClient.go_offline`: fire `offline` once, then flip `online`. -/
def go_offline (s : Client) : Client :=
  if !s.online then s
  else { s with events := s.events ++ [Event.offline], online := false }

/-- `BackendClient.connection_error` restricted to the inputs on which the
raw subscript `self.ssh_stream[channel]` (client.py:268) succeeds, i.e.
`channel` is a key of `ssh_stream` (as `start` makes every opened channel)
or the early `if not self.active: return` fires first.  On those inputs
this total function computes the source's state change (logging of the
passed error object is counted in `log_errors`).  For a channel absent
from `ssh_stream` on an active client the source instead raises
`KeyError` before the `connected`/`registered` resets; that error path is
modelled by `connection_error_py` below, and `connection_error_py_ok`
proves the two agree whenever the key is present.  Every transmit-path
use in this file applies this function only at channels present in
`ssh_stream`. -/
def connection_error (s : Client) (channel : String) : Client :=
  if !s.active then s
  else
    let s :=
      if (dget s.ssh_stream channel).getD false then
        { s with ssh_stream := dset s.ssh_stream channel false }
      else s
    if s.expect_close then s
    else
      let s := { s with connected := [], registered := [] }
      let s := { s with log_errors := s.log_errors + 1 }
      let s := { s with events := s.events ++ [Event.disconnect] }
      { s with connection_errors := s.connection_errors + 1 }

/-- `BackendClient.connection_error` with the raw subscript
`self.ssh_stream[channel]` (client.py:268) embedded faithfully: it sits
inside a `try` whose only handler is
`except (KeyboardInterrupt, SystemExit): raise`, so the `KeyError` it
raises for a channel absent from `ssh_stream` is not caught and
propagates out of `connection_error` before the `connected`/`registered`
resets at client.py:279-280 run.  When the key is present, the stored
`Bool` is the truthiness of `self.ssh_stream[channel]` (`None` or a
closed stream reads false and skips the `close()`). -/
def connection_error_py (s : Client) (channel : String) :
    Except (PyErr × Client) Client :=
  if !s.active then Except.ok s
  else
    match dget s.ssh_stream channel with
    | none => Except.error (PyErr.keyError, s)
    | some stream_open =>
      let s :=
        if stream_open then { s with ssh_stream := dset s.ssh_stream channel false }
        else s
      if s.expect_close then Except.ok s
      else
        let s := { s with connected := [], registered := [] }
        let s := { s with log_errors := s.log_errors + 1 }
        let s := { s with events := s.events ++ [Event.disconnect] }
        Except.ok { s with connection_errors := s.connection_errors + 1 }

/-- `BackendClient.send`: enqueue a serialized payload on one channel. -/
def send (s : Client) (data : Bytes) (channel : String) : Client :=
  if !(s.active && s.online) then s
  else if s.stop_on_empty_queue then s
  else
    let mid := s.message_id + 1
    let m : PyMsg :=
      { _id := mid, typ := none, _data := some data, _total := data.length }
    { s with message_id := mid,
             queues := dset s.queues channel (qget s channel ++ [m]) }

/-- The per-write chunk size in `send_message` (`BUFFER_SIZE = 100*1024`). -/
def BUFFER_SIZE : Nat := 100 * 1024

/-- Fuel-indexed worker for `chunksOf`. -/
def chunks_go : Nat → Bytes → List Bytes
  | 0, _ => []
  | _, [] => []
  | Nat.succ f, a :: rest =>
    (a :: rest).take BUFFER_SIZE :: chunks_go f ((a :: rest).drop BUFFER_SIZE)

/-- The successive `data[:BUFFER_SIZE]` slices written by the transmit
loop of `send_message`. -/
def chunksOf (data : Bytes) : List Bytes :=
  chunks_go data.length data

/-- Serialization of a raw dict message (`msgpack.packb(message)`),
abstracted to the byte rendering of its `type` tag. -/
def pack_raw (m : PyMsg) : Bytes :=
  match m.typ with
  | some t => t.toList.map Char.toNat
  | none => []

/-- The chunked write loop of `send_message`: append each chunk to the
transport trace; the chunk at index `failAt` (if any) raises instead. -/
def write_chunks (s : Client) (channel : String) :
    List Bytes → Option Nat → Nat → Client × Bool
  | [], _, _ => (s, true)
  | c :: rest, failAt, i =>
    if failAt = some i then (s, false)
    else
      write_chunks { s with writes := s.writes ++ [(channel, c)] }
        channel rest failAt (i + 1)

/-- `BackendClient.send_message`: transmit one message dict.  Returns the
updated state, the (mutated) message, and `some total` on success or
`none` where the Python code returns `False`. -/
def send_message (s : Client) (m : PyMsg) (channel : String)
    (failAt : Option Nat) : Client × PyMsg × Option Nat :=
  if !is_connected s channel then (s, m, none)
  else
    let m1 : PyMsg := { m with _sending := true }
    let dt : Bytes × Nat :=
      match m1._data with
      | some d => (d, m1._total)
      | none => ((pack_raw m1), (pack_raw m1).length)
    match write_chunks s channel (chunksOf dt.1) failAt 0 with
    | (s1, true) => (s1, { m1 with _sent := true }, some dt.2)
    | (s1, false) => (connection_error s1 channel, m1, none)

/-- `BackendClient.handle_messages` (the base dispatch loop, run under
the shared lock).  `message['force']` on a record without that key
raises `KeyError`. -/
def handle_messages_base : Client → List InMsg → Except (PyErr × Client) Client
  | s, [] => Except.ok s
  | s, InMsg.nondict :: rest => handle_messages_base s rest
  | s, InMsg.dict a force _ _ _ :: rest =>
    match a with
    | none => handle_messages_base s rest
    | some code =>
      if !s.external_stopped && code == "stop" then
        let s := { s with external_stopped := true }
        match force with
        | none => Except.error (PyErr.keyError, s)
        | some f =>
          handle_messages_base { s with events := s.events ++ [Event.stop f] } rest
      else handle_messages_base s rest

/-- The extension loop of `JobClient.handle_messages` (runs after the
base dispatch; skipped entirely once an external stop is recorded). -/
def job_dispatch_loop : Client → List InMsg → Except (PyErr × Client) Client
  | s, [] => Except.ok s
  | s, m :: rest =>
    if s.external_stopped then job_dispatch_loop s rest
    else
      match m with
      | InMsg.nondict => job_dispatch_loop s rest
      | InMsg.dict a _ _ values typ =>
        let step1 : Except (PyErr × Client) Client :=
          if a == some "parameter-changed" then
            match values with
            | none => Except.error (PyErr.keyError, s)
            | some v =>
              Except.ok { s with events := s.events ++ [Event.parameter_changed v] }
          else Except.ok s
        match step1 with
        | Except.error e => Except.error e
        | Except.ok s2 =>
          let s3 :=
            if typ == some "action" then
              { s2 with events := s2.events ++ [Event.action] }
            else s2
          job_dispatch_loop s3 rest

/-- `JobClient.handle_messages`: base dispatch, then the job extension. -/
def handle_messages_job (s : Client) (msgs : List InMsg) :
    Except (PyErr × Client) Client :=
  match handle_messages_base s msgs with
  | Except.error e => Except.error e
  | Except.ok s1 => job_dispatch_loop s1 msgs

/-- The registration request dict built in `JobClient.on_connect`. -/
def register_msg : PyMsg := { typ := some "register_job_worker" }

/-- `JobClient.on_connect`.  `resp` is what
`wait_for_at_least_one_message` delivered: `none` models its `False`
return (connection broke, in which case it already ran
`connection_error`). -/
def on_connect (s : Client) (_reconnect : Bool) (channel : String)
    (resp : Option (List InMsg)) : Except (PyErr × Client) (Client × Bool) :=
  let s := (send_message s register_msg channel none).1
  match resp with
  | none =>
    let s := connection_error s channel
    let s := { s with events := s.events ++ [Event.registration_failed "No answer received."] }
    Except.ok (s, false)
  | some [] =>
    let s := { s with events := s.events ++ [Event.registration_failed "No answer received."] }
    Except.ok (s, false)
  | some (m :: rest) =>
    match m with
    | InMsg.dict (some a) _ reason _ _ =>
      if a == "aborted" then
        let s :=
          if channel == "" then
            { s with log_errors := s.log_errors + 1,
                     events := s.events ++ [Event.aborted] }
          else s
        Except.ok ({ s with active := false }, false)
      else if a == "registration_failed" then
        if channel == "" then
          match reason with
          | none => Except.error (PyErr.keyError, s)
          | some r =>
            Except.ok ({ s with events := s.events ++ [Event.registration_failed r] }, false)
        else Except.ok (s, false)
      else if a == "registered" then
        let s := { s with registered := dset s.registered channel true }
        let s :=
          if channel == "" then { s with events := s.events ++ [Event.registration] }
          else s
        match handle_messages_job s rest with
        | Except.error e => Except.error e
        | Except.ok s1 => Except.ok (s1, true)
      else Except.ok ({ s with log_errors := s.log_errors + 1 }, false)
    | _ => Except.ok ({ s with log_errors := s.log_errors + 1 }, false)

/-- `BackendClient.close` takes no parameter beside `self`
(`def close(self):`). -/
def close_def_paramc : Nat := 1

/-- The call `self.close(channel)` in `connect` passes two arguments
(`self` and the channel). -/
def close_call_argc : Nat := 2

/-- The body of `BackendClient.close`. -/
def close_body (s : Client) : Client :=
  let s := { s with active := false, connected := [], registered := [] }
  let s := { s with ssh_stream := s.ssh_stream.map (fun p : String × Bool => (p.1, false)) }
  let s := if s.online then { s with events := s.events ++ [Event.close] } else s
  { s with ssh_stream := [], online := false }

/-- Calling the bound method `close` with `argc` arguments: a mismatch
with the parameter count raises `TypeError`. -/
def call_close (s : Client) (argc : Nat) : Except PyErr Client :=
  if argc == close_def_paramc then Except.ok (close_body s)
  else Except.error PyErr.typeError

/-- What the environment delivers to one `connect` attempt. -/
inductive ConnectOutcome
  | openFail
  | noStdout (stderrdata : String)
  | brokenStream (stderrdata : String)
  | handshake (resp : Option (List InMsg))
deriving Repr

/-- The registration-failure branch of `connect` (client.py lines
206-233), entered when `self.registered[channel]` is falsy. -/
def reg_failed_branch (s : Client) (channel : String) (stderrdata : String) :
    Except (PyErr × Client) (Client × Option Bool) :=
  let s := { s with connected := dset s.connected channel false }
  let s := { s with ssh_stream := dset s.ssh_stream channel false }
  let s := { s with connection_tries := s.connection_tries + 1 }
  match dget s.was_connected_once channel with
  | none => Except.error (PyErr.keyError, s)
  | some w =>
    let s :=
      if !w && s.go_offline_on_first_failed_attempt then go_offline s else s
    let s :=
      if stderrdata != "" && !strContains stderrdata ("Connection refused")
          && !strContains stderrdata ("Permission denied") then
        { s with log_errors := s.log_errors + 1 }
      else s
    if strContains stderrdata ("Permission denied") then
      let s :=
        if s.connection_tries < 3 then { s with log_warnings := s.log_warnings + 1 }
        else s
      match call_close s close_call_argc with
      | Except.error e => Except.error (e, s)
      | Except.ok s1 => Except.error (PyErr.systemExit 1, s1)
    else
      let s := connection_error s channel
      Except.ok (s, none)

/-- The `try` body of `BackendClient.connect` (dispatching to
`JobClient.on_connect`).  `Except.ok (s, some v)` is an early `return v`;
`Except.ok (s, none)` falls through to `return self.is_connected`. -/
def connect_body (s : Client) (channel : String) (outcome : ConnectOutcome) :
    Except (PyErr × Client) (Client × Option Bool) :=
  if is_connected s channel || !s.online then Except.ok (s, some true)
  else
    let s := { s with connected := dset s.connected channel false,
                      registered := dset s.registered channel false }
    match outcome with
    | ConnectOutcome.openFail => Except.error (PyErr.exc "open failed", s)
    | ConnectOutcome.noStdout stderrdata =>
      let s := { s with ssh_stream := dset s.ssh_stream channel true }
      match dget s.registered channel with
      | none => Except.error (PyErr.keyError, s)
      | some r =>
        if !r then reg_failed_branch s channel stderrdata
        else Except.ok (s, none)
    | ConnectOutcome.brokenStream stderrdata =>
      let s := { s with ssh_stream := dset s.ssh_stream channel true }
      let s := connection_error s channel
      match dget s.registered channel with
      | none => Except.error (PyErr.keyError, s)
      | some r =>
        if !r then reg_failed_branch s channel stderrdata
        else Except.ok (s, none)
    | ConnectOutcome.handshake resp =>
      let s := { s with ssh_stream := dset s.ssh_stream channel true }
      let s := { s with connected := dset s.connected channel true }
      match dget s.was_connected_once channel with
      | none => Except.error (PyErr.keyError, s)
      | some w =>
        match on_connect s w channel resp with
        | Except.error e => Except.error e
        | Except.ok (s1, reg) =>
          let s2 := { s1 with registered := dset s1.registered channel reg }
          match dget s2.registered channel with
          | none => Except.error (PyErr.keyError, s2)
          | some r =>
            if !r then reg_failed_branch s2 channel ("")
            else
              Except.ok
                ({ s2 with was_connected_once := dset s2.was_connected_once channel true },
                 none)

/-- `BackendClient.connect`: the `in_connecting` guard, the `try` body,
the `except Exception` funnel into `connection_error`, the `finally`
reset of `in_connecting`, and the final `return self.is_connected`.
`SystemExit` is not caught and propagates. -/
def connect (s : Client) (channel : String) (outcome : ConnectOutcome) :
    Except (PyErr × Client) (Client × Bool) :=
  if s.in_connecting then Except.ok (s, false)
  else
    let s0 := { s with in_connecting := true }
    match connect_body s0 channel outcome with
    | Except.ok (s1, some v) => Except.ok ({ s1 with in_connecting := false }, v)
    | Except.ok (s1, none) =>
      let s2 := { s1 with in_connecting := false }
      Except.ok (s2, is_connected s2 channel)
    | Except.error (e, s1) =>
      if py_is_exception e then
        let s2 := connection_error s1 channel
        let s3 := { s2 with in_connecting := false }
        Except.ok (s3, is_connected s3 channel)
      else Except.error (e, { s1 with in_connecting := false })

/-- The reset pass at the top of each `thread_write` iteration: any
snapshot entry marked sending but never completed loses its flag. -/
def reset_stale (q : List PyMsg) : List PyMsg :=
  q.map (fun m => if m._sending && !m._sent then { m with _sending := false } else m)

/-- Replace every queue entry carrying the id of the (mutated) message
`m` by `m`; ids are unique in well-formed states, so this is the Python
in-place mutation of the shared dict object. -/
def update_msg (q : List PyMsg) (m : PyMsg) : List PyMsg :=
  q.map (fun x => if x._id = m._id then m else x)

/-- The send walk of one `thread_write` iteration over the snapshot:
re-check the connection before each message, transmit eligible entries,
stop past the 1 MiB soft cap or on a failed transmit.  Returns the ids
collected in `sent`.  `plan i` schedules the chunk failure for the
snapshot entry at index `i`. -/
def send_pass (channel : String) (plan : Nat → Option Nat) :
    Client → List PyMsg → Nat → Nat → Client × List Nat
  | s, [], _, _ => (s, [])
  | s, m :: rest, idx, sent_size =>
    if !(is_connected s channel && is_registered s channel) then (s, [])
    else if !m._sending && !m._sent then
      match send_message s m channel (plan idx) with
      | (s1, m1, some size) =>
        let s2 := { s1 with queues := dset s1.queues channel (update_msg (qget s1 channel) m1) }
        if sent_size + size > 1024 * 1024 then (s2, [m1._id])
        else
          let r := send_pass channel plan s2 rest (idx + 1) (sent_size + size)
          (r.1, m1._id :: r.2)
      | (s1, m1, none) =>
        let s2 := { s1 with queues := dset s1.queues channel (update_msg (qget s1 channel) m1) }
        (s2, [])
    else send_pass channel plan s rest (idx + 1) sent_size

/-- One connected-and-registered iteration of `thread_write`: snapshot,
reset stale `_sending` flags, walk the snapshot, then remove the sent
messages from the real queue under the lock.  The second component is
true when `stop_on_empty_queue` makes the thread `return`. -/
def writer_iteration (s : Client) (channel : String) (plan : Nat → Option Nat) :
    Client × Bool :=
  let q0 := reset_stale (qget s channel)
  let sA := { s with queues := dset s.queues channel q0 }
  let r := send_pass channel plan sA q0 0 0
  let q1 := (qget r.1 channel).filter (fun m => !(r.2.contains m._id))
  let sB := { r.1 with queues := dset r.1.queues channel q1 }
  (sB, sB.stop_on_empty_queue)

/-- The body of one `while self.active` iteration of `thread_write`
(given that the loop guard already passed).  The boolean is true when
the iteration executed `return`. -/
def thread_write_step (s : Client) (channel : String) (plan : Nat → Option Nat)
    (outcome : ConnectOutcome) : Except (PyErr × Client) (Client × Bool) :=
  if s.online then
    let r :=
      if is_connected s channel && is_registered s channel then
        writer_iteration s channel plan
      else (s, false)
    if r.2 then Except.ok (r.1, true)
    else
      let s1 := r.1
      if s1.active && !is_connected s1 channel && !s1.expect_close then
        match connect s1 channel outcome with
        | Except.ok (s2, _) => Except.ok (s2, false)
        | Except.error e => Except.error e
      else Except.ok (s1, false)
  else Except.ok (s, false)

/-- The `thread_write` loop, fuel-indexed.  The boolean is true when the
loop actually exited (guard failure or drain `return`), false when the
fuel ran out with the loop still live. -/
def thread_write_run (fuel : Nat) (s : Client) (channel : String)
    (plans : Nat → Nat → Option Nat) (outcomes : Nat → ConnectOutcome)
    (iter : Nat) : Except (PyErr × Client) (Client × Bool) :=
  match fuel with
  | 0 => Except.ok (s, false)
  | Nat.succ f =>
    if !s.active then Except.ok (s, true)
    else
      match thread_write_step s channel (plans iter) (outcomes iter) with
      | Except.ok (s1, true) => Except.ok (s1, true)
      | Except.ok (s1, false) =>
        thread_write_run f s1 channel plans outcomes (iter + 1)
      | Except.error e => Except.error e

/-- `BackendClient.wait_for_close` (reads-until-EOF dropped; the state
transitions are kept). -/
def wait_for_close (s : Client) : Client :=
  if !(s.active && s.online) then s
  else
    let s := { s with active := false }
    { s with online := false }

/-- The `end`-marker dict `{'type': 'end'}` built in `BackendClient.end`. -/
def end_msg : PyMsg := { typ := some "end" }

/-- `BackendClient.end`: set `expect_close`, call `send_message` with the
`end` dict on every channel of `ssh_stream_stdouts`, then
`wait_for_close`. -/
def end_client (s : Client) : Client :=
  let s := { s with expect_close := true }
  let s := s.channels.foldl (fun acc ch => (send_message acc end_msg ch none).1) s
  wait_for_close s

/-- `BackendClient.wait_sending_last_messages`: request drain-then-stop
(the join of the writer threads is the fuel-indexed run). -/
def wait_sending_last_messages (s : Client) : Client :=
  if s.active && s.online then { s with stop_on_empty_queue := true } else s

/-! Helper definitions used to state and prove the claims. -/

/-- A message as `send_message` leaves it after a complete transmit. -/
def mark_sent (m : PyMsg) : PyMsg := { m with _sending := true, _sent := true }

/-- The transport-trace segment produced by transmitting one queue entry. -/
def chunk_writes (channel : String) (m : PyMsg) : List (String × Bytes) :=
  (chunksOf (m._data.getD [])).map (fun c => (channel, c))

/-- The prefix of the snapshot that one writer iteration transmits before
the 1 MiB soft cap stops the walk (all transmissions succeeding). -/
def cap_take (sz : Nat) : List PyMsg → List PyMsg
  | [] => []
  | m :: rest =>
    if sz + m._total > 1024 * 1024 then [m]
    else m :: cap_take (sz + m._total) rest

/-- Total declared payload size of a queue. -/
def sum_totals (q : List PyMsg) : Nat := (q.map PyMsg._total).sum

/-- The queue entries that `send` builds for the payloads `ds`, starting
from message counter `base`. -/
def built_msgs (base : Nat) : List Bytes → List PyMsg
  | [] => []
  | d :: rest =>
    { _id := base + 1, typ := none, _data := some d, _total := d.length }
      :: built_msgs (base + 1) rest

/-- Enqueue a list of payloads in order via `send`. -/
def send_all (s : Client) (ds : List Bytes) (channel : String) : Client :=
  ds.foldl (fun acc d => send acc d channel) s

/-- Feed several decoded batches through the base dispatch in order. -/
def handle_batches : Client → List (List InMsg) → Except (PyErr × Client) Client
  | s, [] => Except.ok s
  | s, b :: rest =>
    match handle_messages_base s b with
    | Except.error e => Except.error e
    | Except.ok s1 => handle_batches s1 rest

/-- The `force` field of a record whose action code is `stop`. -/
def stop_force : InMsg → Option Bool
  | InMsg.dict (some a) force _ _ _ => if a == "stop" then force else none
  | _ => none

/-- The `force` field of the first stop record of a message sequence. -/
def first_stop_force (msgs : List InMsg) : Option Bool :=
  msgs.findSome? stop_force

/-- Whether a record is well-formed for dispatch: a stop record carries a
`force` field (otherwise the source raises `KeyError`). -/
def stop_force_ok : InMsg → Bool
  | InMsg.dict (some a) force _ _ _ => if a == "stop" then force.isSome else true
  | _ => true

/-- Whether the queue holds an entry with id `i` whose `_sent` flag is
set (used to state that removal happens only after `sent`). -/
def has_sent_entry (q : List PyMsg) (i : Nat) : Bool :=
  q.any (fun x => (x._id == i) && x._sent)

/-- Recognize `stop` events in the fired-event trace. -/
def is_stop_event : Event → Bool
  | Event.stop _ => true
  | _ => false

/-- Recognize `registration_failed` events in the fired-event trace. -/
def is_reg_failed_event : Event → Bool
  | Event.registration_failed _ => true
  | _ => false

/-- State component of a result that may carry an uncaught exception. -/
def res_state : Except (PyErr × Client) (Client × Bool) → Option Client
  | Except.ok (s, _) => some s
  | Except.error _ => none

/-- Boolean component of such a result. -/
def res_flag : Except (PyErr × Client) (Client × Bool) → Option Bool
  | Except.ok (_, b) => some b
  | Except.error _ => none

/-- The uncaught exception of such a result, if any. -/
def res_raised : Except (PyErr × Client) (Client × Bool) → Option PyErr
  | Except.ok _ => none
  | Except.error (e, _) => some e

/-- State component of a dispatch result. -/
def hm_state : Except (PyErr × Client) Client → Option Client
  | Except.ok s => some s
  | Except.error _ => none

/-! Concrete states used by counterexamples and witnesses. -/

/-- A client as `start(channels)` leaves it, before any connect attempt. -/
def started (chs : List String) : Client :=
  { active := true,
    connected := [],
    registered := [],
    was_connected_once := chs.map (fun c => (c, false)),
    ssh_stream := chs.map (fun c => (c, false)),
    queues := chs.map (fun c => (c, [])),
    channels := chs }

/-- A started single-channel client whose primary channel is connected
and registered. -/
def started_conn : Client :=
  { started [""] with connected := [("", true)], registered := [("", true)] }

/-- C1 scenario: one application message queued on the primary channel. -/
def c1_state : Client := send started_conn [7] ""

/-- Transport error text carrying an authentication denial. -/
def perm_denied_msg : String := "Permission denied (publickey)."

/-- C2 scenario, realistic path: first-frame wait fails with the denial
on stderr. -/
def c2_r1 : Except (PyErr × Client) (Client × Bool) :=
  connect (started [""]) "" (ConnectOutcome.brokenStream perm_denied_msg)

/-- C2 scenario, falsy-stdout path: the registration-failure branch is
reached with the denial on stderr. -/
def c2_r2 : Except (PyErr × Client) (Client × Bool) :=
  connect (started [""]) "" (ConnectOutcome.noStdout perm_denied_msg)

/-- A payload one byte over the 1 MiB per-iteration soft cap. -/
def big_payload : Bytes := List.replicate (1024 * 1024 + 1) 0

/-- The queue entry `send` builds for `big_payload` (id 1). -/
def big_msg : PyMsg :=
  { _id := 1, typ := none, _data := some big_payload, _total := 1024 * 1024 + 1 }

/-- A one-byte queue entry behind `big_msg` (id 2). -/
def small_msg : PyMsg :=
  { _id := 2, typ := none, _data := some [1], _total := 1 }

/-- C3 scenario: drain requested with more than 1 MiB queued. -/
def c3_state : Client :=
  { started_conn with stop_on_empty_queue := true,
                      queues := [("", [big_msg, small_msg])] }

/-- C3 witness scenario: two small messages enqueued, then drain
requested. -/
def c3_small_state : Client :=
  wait_sending_last_messages (send (send started_conn [1, 2] "") [3] "")

/-- The C3 drain run (no transmit failures). -/
def c3_run : Except (PyErr × Client) (Client × Bool) :=
  thread_write_run 1 c3_state "" (fun _ _ => none)
    (fun _ => ConnectOutcome.openFail) 0

/-- C5 scenario: handshake on the secondary channel gets no response. -/
def c5_r : Except (PyErr × Client) (Client × Bool) :=
  on_connect { started ["", "x"] with connected := [("x", true)] } false "x" none

/-- C6 scenario, realistic path: very first connect attempt fails at the
first-frame wait (policy enabled, never connected). -/
def c6_r1 : Except (PyErr × Client) (Client × Bool) :=
  connect (started [""]) "" (ConnectOutcome.brokenStream (""))

/-- C6 scenario, handshake-rejection path: the peer answers the first
attempt with a `registration_failed` record. -/
def c6_r2 : Except (PyErr × Client) (Client × Bool) :=
  connect (started [""]) ""
    (ConnectOutcome.handshake
      (some [InMsg.dict (some ("registration_failed")) none (some ("bad")) none none]))

/-- C4 witness data: a small unsent queue entry. -/
def w4_msg : PyMsg := { _id := 1, _data := some [5, 6], _total := 2 }

/-- C4 witness data: an entry interrupted mid-send. -/
def w4_stale : PyMsg := { _id := 3, _data := some [9], _total := 1, _sending := true }

/-- C4 witness data: a one-entry queue. -/
def w4_queue : List PyMsg := [w4_msg]

/-- C4 witness data: a connected client holding `w4_queue`. -/
def w4_state : Client := { started_conn with queues := [("", w4_queue)] }

/-! Theorems. -/

/-- C1 counterexample: with one application message queued on the
connected primary channel, `end` leaves the queue exactly as it was (the
`end` marker is never appended to it) and instead writes the serialized
`end` dict straight to the transport.  This falsifies the claim that the
`end` message is enqueued behind queued messages and that `end` performs
no direct transport write. -/
theorem c1_counterexample :
    (end_client c1_state).queues = c1_state.queues
      ∧ (qget (end_client c1_state) "").length = 1
      ∧ (end_client c1_state).writes = c1_state.writes ++ [("", pack_raw end_msg)]
      ∧ c1_state.writes = [] := by
  decide

/-- C2 (code bug): on a connect attempt whose transport error output
contains `Permission denied`, no `SystemExit` is raised, the client stays
active with zero `close` events, no warning is logged and the
connection-try counter is untouched (on the realistic broken-stream path
the `KeyError` on `self.registered[channel]` preempts the whole branch),
and the writer-loop retry condition still holds afterwards; even on the
falsy-stdout path where the branch runs, `self.close(channel)` raises
`TypeError` (caught by the generic handler), so `sys.exit(1)` is never
reached and further connect attempts follow. -/
theorem c2_permission_exit_unreachable :
    res_raised c2_r1 = none
      ∧ res_flag c2_r1 = some false
      ∧ (res_state c2_r1).map Client.active = some true
      ∧ (res_state c2_r1).map Client.online = some true
      ∧ (res_state c2_r1).map Client.log_warnings = some 0
      ∧ (res_state c2_r1).map Client.connection_tries = some 0
      ∧ (res_state c2_r1).map (fun s => s.events.count Event.close) = some 0
      ∧ (res_state c2_r1).map (fun s => s.active && !is_connected s "" && !s.expect_close)
          = some true
      ∧ res_raised c2_r2 = none
      ∧ res_flag c2_r2 = some false
      ∧ (res_state c2_r2).map Client.active = some true
      ∧ (res_state c2_r2).map (fun s => s.events.count Event.close) = some 0 := by
  decide

/-- C5 counterexample: a handshake on the secondary channel `x` that
receives no response at all fires a `registration_failed` event (reason
`No answer received.`), although the peer never sent a
`registration_failed` record and the channel is not the default one.
This falsifies both restrictions of the claim. -/
theorem c5_counterexample :
    res_flag c5_r = some false
      ∧ (res_state c5_r).map
          (fun s => s.events.count (Event.registration_failed ("No answer received.")))
          = some 1 := by
  decide

/-- C6 (code bug): a never-connected channel whose very first connect
attempt fails at the first-frame wait leaves `online` true and fires no
`offline` event (the `KeyError` on `self.registered[channel]` bypasses
the `go_offline` call), contradicting the claim; the handshake-rejection
shape of the same first failure does drive `online` to false with exactly
one `offline` event, which is the behavior the claim (and the code
comment) intends for every first failure. -/
theorem c6_first_failure_policy_bug :
    res_raised c6_r1 = none
      ∧ res_flag c6_r1 = some false
      ∧ (res_state c6_r1).map Client.online = some true
      ∧ (res_state c6_r1).map (fun s => s.events.count Event.offline) = some 0
      ∧ res_raised c6_r2 = none
      ∧ res_flag c6_r2 = some false
      ∧ (res_state c6_r2).map Client.online = some false
      ∧ (res_state c6_r2).map (fun s => s.events.count Event.offline) = some 1 := by
  decide

/-- On any input whose channel is a key of `ssh_stream` (every channel
`start` opened), the faithful `connection_error_py` raises nothing and
returns exactly the state `connection_error` computes. -/
theorem connection_error_py_ok (s : Client) (channel : String) (b : Bool)
    (hS : dget s.ssh_stream channel = some b) :
    connection_error_py s channel = Except.ok (connection_error s channel) := by
  unfold connection_error_py connection_error
  by_cases hA : (!s.active) = true
  · rw [if_pos hA, if_pos hA]
  · rw [if_neg hA, if_neg hA, hS]
    dsimp only [Option.getD]
    split <;> split <;> rfl

/-- C10: when the client is active, no close is expected, and the failing
channel is one `start` opened (so the subscript `self.ssh_stream[channel]`
at client.py:268 finds its key and raises no `KeyError`),
`connection_error` on that one channel runs to its resets without raising
and empties both the `connected` and the `registered` maps, so every
channel (not just the failing one) reads as disconnected and unregistered
afterwards. -/
theorem c10_connection_error_clears_all (s : Client) (channel c : String) (b : Bool)
    (hA : s.active = true) (hE : s.expect_close = false)
    (hS : dget s.ssh_stream channel = some b) :
    connection_error_py s channel = Except.ok (connection_error s channel)
      ∧ (connection_error s channel).connected = []
      ∧ (connection_error s channel).registered = []
      ∧ is_connected (connection_error s channel) c = false
      ∧ is_registered (connection_error s channel) c = false := by
  refine ⟨connection_error_py_ok s channel b hS, ?_⟩
  unfold connection_error
  simp [hA, hE, is_connected, is_registered, dget, apply_ite]

/-- C10 witness: the theorem applied to a concrete started client, at its
started channel (present in `ssh_stream`); the cleared maps read false for
every channel, including one never started. -/
theorem c10_witness :
    (connection_error_py (started [""]) ""
        = Except.ok (connection_error (started [""]) ""))
      ∧ (connection_error (started [""]) "").connected = []
      ∧ (connection_error (started [""]) "").registered = []
      ∧ is_connected (connection_error (started [""]) "") "x" = false
      ∧ is_registered (connection_error (started [""]) "") "x" = false :=
  c10_connection_error_clears_all (started [""]) "" "x" false
    (by decide) (by decide) (by decide)

/-! Transmit-layer lemmas. -/

theorem write_chunks_none (channel : String) (cs : List Bytes) :
    ∀ (s : Client) (i : Nat),
      write_chunks s channel cs none i
        = ({ s with writes := s.writes ++ cs.map (fun c => (channel, c)) }, true) := by
  induction cs with
  | nil => intro s i; simp [write_chunks]
  | cons c rest ih =>
    intro s i
    rw [write_chunks]
    simp only [reduceCtorEq, if_false, ih]
    simp

theorem write_chunks_fail (channel : String) (cs : List Bytes) :
    ∀ (s : Client) (i k : Nat), k < cs.length →
      write_chunks s channel cs (some (i + k)) i
        = ({ s with writes := s.writes ++ (cs.take k).map (fun c => (channel, c)) }, false) := by
  induction cs with
  | nil => intro s i k h; simp at h
  | cons c rest ih =>
    intro s i k h
    rw [write_chunks]
    cases k with
    | zero => simp
    | succ j =>
      have hne : (some (i + (j + 1)) = some i) = False := by
        simp only [Option.some.injEq, eq_iff_iff, iff_false]
        omega
      simp only [hne, if_false]
      have : i + (j + 1) = (i + 1) + j := by omega
      rw [this, ih _ (i + 1) j (by simpa using h)]
      simp

theorem write_chunks_queues (channel : String) (cs : List Bytes) :
    ∀ (s : Client) (f : Option Nat) (i : Nat),
      ((write_chunks s channel cs f i).1).queues = s.queues := by
  induction cs with
  | nil => intro s f i; rfl
  | cons c rest ih =>
    intro s f i
    rw [write_chunks]
    split
    · rfl
    · exact ih _ f (i + 1)

theorem connection_error_queues (s : Client) (channel : String) :
    (connection_error s channel).queues = s.queues := by
  unfold connection_error
  split
  · rfl
  · split <;> (dsimp only; split <;> rfl)

theorem send_message_success (s : Client) (m : PyMsg) (channel : String)
    (d : Bytes) (hc : is_connected s channel = true) (hd : m._data = some d) :
    send_message s m channel none
      = ({ s with writes := s.writes ++ (chunksOf d).map (fun c => (channel, c)) },
         mark_sent m, some m._total) := by
  unfold send_message
  rw [hc]
  simp only [Bool.not_true, Bool.false_eq_true, if_false, hd]
  rw [write_chunks_none]
  simp [mark_sent, hd]

theorem send_message_fail (s : Client) (m : PyMsg) (channel : String)
    (d : Bytes) (k : Nat) (hc : is_connected s channel = true)
    (hd : m._data = some d) (hk : k < (chunksOf d).length) :
    send_message s m channel (some k)
      = (connection_error
           { s with writes := s.writes ++ ((chunksOf d).take k).map (fun c => (channel, c)) }
           channel,
         { m with _sending := true }, none) := by
  unfold send_message
  rw [hc]
  simp only [Bool.not_true, Bool.false_eq_true, if_false, hd]
  have h0 : (some k) = some (0 + k) := by simp
  rw [h0, write_chunks_fail channel (chunksOf d) _ 0 k hk]

theorem send_message_not_connected (s : Client) (m : PyMsg) (channel : String)
    (p : Option Nat) (hc : is_connected s channel = false) :
    send_message s m channel p = (s, m, none) := by
  unfold send_message
  rw [hc]
  rfl

theorem send_message_none_shape (s : Client) (m : PyMsg) (channel : String) :
    ∃ t, (send_message s m channel none).1 = { s with writes := s.writes ++ t } := by
  by_cases hc : is_connected s channel = true
  · unfold send_message
    rw [hc]
    simp only [Bool.not_true, Bool.false_eq_true, if_false]
    cases hd : m._data with
    | none =>
      refine ⟨(chunksOf (pack_raw { m with _sending := true })).map
        (fun c => (channel, c)), ?_⟩
      simp only [hd]
      rw [write_chunks_none]
    | some d =>
      refine ⟨(chunksOf d).map (fun c => (channel, c)), ?_⟩
      simp only [hd]
      rw [write_chunks_none]
  · refine ⟨[], ?_⟩
    rw [send_message_not_connected s m channel none (by simpa using hc)]
    simp

theorem send_message_queues (s : Client) (m : PyMsg) (channel : String)
    (p : Option Nat) : ((send_message s m channel p).1).queues = s.queues := by
  by_cases hc : is_connected s channel = true
  · unfold send_message
    rw [hc]
    simp only [Bool.not_true, Bool.false_eq_true, if_false]
    cases hd : m._data with
    | none =>
      rcases hw : write_chunks s channel
          (chunksOf (pack_raw { m with _sending := true })) p 0 with ⟨s1, b⟩
      have hq : s1.queues = s.queues := by
        have h2 := write_chunks_queues channel
          (chunksOf (pack_raw { m with _sending := true })) s p 0
        rw [hw] at h2
        exact h2
      cases b
      · simp only [hd] at hw ⊢
        rw [hw]
        simp [connection_error_queues, hq]
      · simp only [hd] at hw ⊢
        rw [hw]
        simpa using hq
    | some d =>
      rcases hw : write_chunks s channel (chunksOf d) p 0 with ⟨s1, b⟩
      have hq : s1.queues = s.queues := by
        have h2 := write_chunks_queues channel (chunksOf d) s p 0
        rw [hw] at h2
        exact h2
      cases b
      · simp [connection_error_queues, hq]
      · exact hq
  · rw [send_message_not_connected s m channel p (by simpa using hc)]

theorem dget_dset_self {α : Type} (d : Dict α) (k : String) (v : α) :
    dget (dset d k v) k = some v := by
  simp [dget, dset]

theorem qget_set_queue (s : Client) (channel : String) (q : List PyMsg) :
    qget { s with queues := dset s.queues channel q } channel = q := by
  simp [qget, dget_dset_self]

theorem send_message_id (s : Client) (m : PyMsg) (channel : String)
    (p : Option Nat) : ((send_message s m channel p).2.1)._id = m._id := by
  by_cases hc : is_connected s channel = true
  · unfold send_message
    rw [hc]
    simp only [Bool.not_true, Bool.false_eq_true, if_false]
    cases hd : m._data with
    | none =>
      rcases hw : write_chunks s channel
          (chunksOf (pack_raw { m with _sending := true })) p 0 with ⟨s1, b⟩
      cases b <;> simp only [hd] at hw ⊢ <;> rw [hw]
    | some d =>
      rcases hw : write_chunks s channel (chunksOf d) p 0 with ⟨s1, b⟩
      cases b <;> rfl
  · rw [send_message_not_connected s m channel p (by simpa using hc)]

theorem send_message_some_inv (s : Client) (m : PyMsg) (channel : String)
    (p : Option Nat) (s1 : Client) (m1 : PyMsg) (n : Nat)
    (h : send_message s m channel p = (s1, m1, some n)) :
    m1._sent = true ∧ m1._id = m._id ∧ s1.queues = s.queues := by
  have hq := send_message_queues s m channel p
  have hid := send_message_id s m channel p
  rw [h] at hq hid
  have hsent : m1._sent = true := by
    by_cases hc : is_connected s channel = true
    · unfold send_message at h
      rw [hc] at h
      simp only [Bool.not_true, Bool.false_eq_true, if_false] at h
      cases hd : m._data with
      | none =>
        simp only [hd] at h
        rcases hw : write_chunks s channel
            (chunksOf (pack_raw { m with _sending := true })) p 0 with ⟨sc, b⟩
        simp only [hd] at hw
        cases b
        · rw [hw] at h
          simp [Prod.mk.injEq] at h
        · rw [hw] at h
          simp only [Prod.mk.injEq] at h
          rw [← h.2.1]
      | some d =>
        simp only [hd] at h
        rcases hw : write_chunks s channel (chunksOf d) p 0 with ⟨sc, b⟩
        cases b
        · rw [hw] at h
          simp [Prod.mk.injEq] at h
        · rw [hw] at h
          simp only [Prod.mk.injEq] at h
          rw [← h.2.1]
    · rw [send_message_not_connected s m channel p (by simpa using hc)] at h
      simp [Prod.mk.injEq] at h
  exact ⟨hsent, hid, hq⟩

theorem ids_update_msg (q : List PyMsg) (m : PyMsg) :
    (update_msg q m).map PyMsg._id = q.map PyMsg._id := by
  induction q with
  | nil => rfl
  | cons x rest ih =>
    simp only [update_msg, List.map_cons] at ih ⊢
    by_cases h : x._id = m._id
    · simp [h, ih]
    · simp [h, ih]

theorem has_sent_entry_update_ne (q : List PyMsg) (m : PyMsg) (i : Nat)
    (hne : m._id ≠ i) :
    has_sent_entry (update_msg q m) i = has_sent_entry q i := by
  induction q with
  | nil => rfl
  | cons x rest ih =>
    simp only [has_sent_entry, update_msg, List.map_cons, List.any_cons] at ih ⊢
    by_cases h : x._id = m._id
    · have hx : (x._id == i) = false := by
        rw [h]
        simpa using hne
      have hm : (m._id == i) = false := by simpa using hne
      simp [h, hx, hm, ih]
    · simp [h, ih]

theorem has_sent_entry_update_self (q : List PyMsg) (m : PyMsg)
    (hm : m._id ∈ q.map PyMsg._id) (hs : m._sent = true) :
    has_sent_entry (update_msg q m) m._id = true := by
  induction q with
  | nil => simp at hm
  | cons x rest ih =>
    simp only [List.map_cons, List.mem_cons] at hm
    rcases hm with hm | hm
    · simp [has_sent_entry, update_msg, ← hm, hs]
    · have hih := ih hm
      simp only [has_sent_entry, update_msg, List.map_cons, List.any_cons] at hih ⊢
      rw [hih]
      simp

/-! Unfolding equations for `send_pass`. -/

theorem send_pass_break (channel : String) (plan : Nat → Option Nat)
    (s : Client) (m : PyMsg) (rest : List PyMsg) (idx sz : Nat)
    (h : (is_connected s channel && is_registered s channel) = false) :
    send_pass channel plan s (m :: rest) idx sz = (s, []) := by
  rw [send_pass]
  simp [h]

theorem send_pass_skip (channel : String) (plan : Nat → Option Nat)
    (s : Client) (m : PyMsg) (rest : List PyMsg) (idx sz : Nat)
    (h : (is_connected s channel && is_registered s channel) = true)
    (he : (!m._sending && !m._sent) = false) :
    send_pass channel plan s (m :: rest) idx sz
      = send_pass channel plan s rest (idx + 1) sz := by
  rw [send_pass]
  simp [h, he]

theorem send_pass_fail (channel : String) (plan : Nat → Option Nat)
    (s : Client) (m : PyMsg) (rest : List PyMsg) (idx sz : Nat)
    (s1 : Client) (m1 : PyMsg)
    (h : (is_connected s channel && is_registered s channel) = true)
    (he : (!m._sending && !m._sent) = true)
    (hsm : send_message s m channel (plan idx) = (s1, m1, none)) :
    send_pass channel plan s (m :: rest) idx sz
      = ({ s1 with queues := dset s1.queues channel (update_msg (qget s1 channel) m1) },
         []) := by
  rw [send_pass]
  simp [h, he, hsm]

theorem send_pass_cap (channel : String) (plan : Nat → Option Nat)
    (s : Client) (m : PyMsg) (rest : List PyMsg) (idx sz : Nat)
    (s1 : Client) (m1 : PyMsg) (size : Nat)
    (h : (is_connected s channel && is_registered s channel) = true)
    (he : (!m._sending && !m._sent) = true)
    (hsm : send_message s m channel (plan idx) = (s1, m1, some size))
    (hcap : sz + size > 1024 * 1024) :
    send_pass channel plan s (m :: rest) idx sz
      = ({ s1 with queues := dset s1.queues channel (update_msg (qget s1 channel) m1) },
         [m1._id]) := by
  rw [send_pass]
  simp [h, he, hsm, hcap]

theorem send_pass_cont (channel : String) (plan : Nat → Option Nat)
    (s : Client) (m : PyMsg) (rest : List PyMsg) (idx sz : Nat)
    (s1 : Client) (m1 : PyMsg) (size : Nat)
    (h : (is_connected s channel && is_registered s channel) = true)
    (he : (!m._sending && !m._sent) = true)
    (hsm : send_message s m channel (plan idx) = (s1, m1, some size))
    (hcap : ¬(sz + size > 1024 * 1024)) :
    send_pass channel plan s (m :: rest) idx sz
      = ((send_pass channel plan
            { s1 with queues := dset s1.queues channel (update_msg (qget s1 channel) m1) }
            rest (idx + 1) (sz + size)).1,
         m1._id
           :: (send_pass channel plan
                { s1 with queues := dset s1.queues channel (update_msg (qget s1 channel) m1) }
                rest (idx + 1) (sz + size)).2) := by
  rw [send_pass]
  simp [h, he, hsm, hcap]

theorem send_pass_preserves_has_sent (channel : String) (plan : Nat → Option Nat) :
    ∀ (q : List PyMsg) (s : Client) (idx sz : Nat) (i : Nat),
      (∀ m ∈ q, m._id ≠ i) →
      has_sent_entry (qget s channel) i = true →
      has_sent_entry (qget (send_pass channel plan s q idx sz).1 channel) i = true := by
  intro q
  induction q with
  | nil => intro s idx sz i _ h; simpa [send_pass] using h
  | cons m rest ih =>
    intro s idx sz i hne h
    by_cases hcr : (is_connected s channel && is_registered s channel) = true
    · by_cases he : (!m._sending && !m._sent) = true
      · rcases hsm : send_message s m channel (plan idx) with ⟨s1, m1, r⟩
        have hq1 : s1.queues = s.queues := by
          have h2 := send_message_queues s m channel (plan idx)
          rw [hsm] at h2
          exact h2
        have hid1 : m1._id = m._id := by
          have h2 := send_message_id s m channel (plan idx)
          rw [hsm] at h2
          exact h2
        have hget1 : qget s1 channel = qget s channel := by
          simp [qget, hq1]
        have hupd : has_sent_entry
            (qget { s1 with queues := dset s1.queues channel (update_msg (qget s1 channel) m1) } channel) i
              = true := by
          rw [qget_set_queue]
          rw [has_sent_entry_update_ne _ _ _ (by rw [hid1]; exact hne m (by simp))]
          rw [hget1]
          exact h
        cases r with
        | none =>
          rw [send_pass_fail channel plan s m rest idx sz s1 m1 hcr he hsm]
          exact hupd
        | some size =>
          by_cases hcap : sz + size > 1024 * 1024
          · rw [send_pass_cap channel plan s m rest idx sz s1 m1 size hcr he hsm hcap]
            exact hupd
          · rw [send_pass_cont channel plan s m rest idx sz s1 m1 size hcr he hsm hcap]
            exact ih _ (idx + 1) (sz + size) i
              (fun x hx => hne x (by simp [hx])) hupd
      · rw [send_pass_skip channel plan s m rest idx sz hcr
          (Bool.not_eq_true _ ▸ Bool.of_not_eq_true he)]
        exact ih s (idx + 1) sz i (fun x hx => hne x (by simp [hx])) h
    · rw [send_pass_break channel plan s m rest idx sz
        (Bool.of_not_eq_true hcr)]
      simpa using h

theorem send_pass_sent_ids (channel : String) (plan : Nat → Option Nat) :
    ∀ (q : List PyMsg) (s : Client) (idx sz : Nat),
      (q.map PyMsg._id).Nodup →
      (∀ m ∈ q, m._id ∈ (qget s channel).map PyMsg._id) →
      ∀ i ∈ (send_pass channel plan s q idx sz).2,
        has_sent_entry (qget (send_pass channel plan s q idx sz).1 channel) i = true := by
  intro q
  induction q with
  | nil => intro s idx sz _ _ i hi; simp [send_pass] at hi
  | cons m rest ih =>
    intro s idx sz hnodup hin i hi
    have hnod2 : (rest.map PyMsg._id).Nodup := by
      simp only [List.map_cons, List.nodup_cons] at hnodup
      exact hnodup.2
    have hnotm : m._id ∉ rest.map PyMsg._id := by
      simp only [List.map_cons, List.nodup_cons] at hnodup
      exact hnodup.1
    by_cases hcr : (is_connected s channel && is_registered s channel) = true
    · by_cases he : (!m._sending && !m._sent) = true
      · rcases hsm : send_message s m channel (plan idx) with ⟨s1, m1, r⟩
        have hq1 : s1.queues = s.queues := by
          have h2 := send_message_queues s m channel (plan idx)
          rw [hsm] at h2
          exact h2
        have hid1 : m1._id = m._id := by
          have h2 := send_message_id s m channel (plan idx)
          rw [hsm] at h2
          exact h2
        have hget1 : qget s1 channel = qget s channel := by
          simp [qget, hq1]
        cases r with
        | none =>
          rw [send_pass_fail channel plan s m rest idx sz s1 m1 hcr he hsm] at hi
          simp at hi
        | some size =>
          have hsent1 : m1._sent = true :=
            (send_message_some_inv s m channel (plan idx) s1 m1 size hsm).1
          have hself : has_sent_entry
              (qget { s1 with queues := dset s1.queues channel (update_msg (qget s1 channel) m1) } channel)
                m1._id = true := by
            rw [qget_set_queue]
            exact has_sent_entry_update_self _ _
              (by rw [hget1, hid1]; exact hin m (by simp)) hsent1
          by_cases hcap : sz + size > 1024 * 1024
          · rw [send_pass_cap channel plan s m rest idx sz s1 m1 size hcr he hsm hcap] at hi ⊢
            simp only [List.mem_singleton] at hi
            rw [hi]
            exact hself
          · rw [send_pass_cont channel plan s m rest idx sz s1 m1 size hcr he hsm hcap] at hi ⊢
            simp only [List.mem_cons] at hi
            rcases hi with hi | hi
            · rw [hi]
              refine send_pass_preserves_has_sent channel plan rest _ (idx + 1)
                (sz + size) m1._id ?_ hself
              intro x hx
              rw [hid1]
              intro hcontra
              have hxm : x._id ∈ List.map PyMsg._id rest :=
                List.mem_map_of_mem PyMsg._id hx
              rw [hcontra] at hxm
              exact hnotm hxm
            · refine ih _ (idx + 1) (sz + size) hnod2 ?_ i hi
              intro x hx
              rw [qget_set_queue, ids_update_msg, hget1]
              exact hin x (by simp [hx])
      · rw [send_pass_skip channel plan s m rest idx sz hcr
          (Bool.not_eq_true _ ▸ Bool.of_not_eq_true he)] at hi ⊢
        exact ih s (idx + 1) sz hnod2 (fun x hx => hin x (by simp [hx])) i hi
    · rw [send_pass_break channel plan s m rest idx sz (Bool.of_not_eq_true hcr)] at hi
      simp at hi

theorem reset_stale_all (q : List PyMsg) :
    (reset_stale q).all (fun x => x._sent || !x._sending) = true := by
  rw [List.all_eq_true]
  intro x hx
  rcases List.mem_map.mp hx with ⟨y, hy, rfl⟩
  by_cases h : (y._sending && !y._sent) = true
  · simp [h]
  · cases hs : y._sending <;> cases ht : y._sent <;> simp_all

/-- C4: (a) the reset pass at the start of a writer iteration leaves no
snapshot entry with `_sending` set while `_sent` is unset; (b) a transmit
interrupted at chunk `k` writes exactly the first `k` chunks to the
transport, leaves the message with `_sent` unset (and `_sending` set, so
only the reset pass re-enables it) and funnels into `connection_error`;
(c) a retransmission with no failure writes every chunk of `_data`
starting from the first one — never resuming from chunk `k` — and only
then marks `_sent`; (d) every id the send walk reports as sent (exactly
the ids the iteration then removes from the real queue) has a `_sent`
entry in the post-walk queue, so a message is removed only after `_sent`
became true. -/
theorem c4_retry_wholeness (q q2 : List PyMsg) (s s2 : Client) (m : PyMsg)
    (channel ch2 : String) (d : Bytes) (k : Nat) (plan : Nat → Option Nat)
    (idx sz : Nat)
    (hc : is_connected s channel = true) (hd : m._data = some d)
    (hk : k < (chunksOf d).length)
    (hnodup : (q2.map PyMsg._id).Nodup)
    (hin : ∀ x ∈ q2, x._id ∈ (qget s2 ch2).map PyMsg._id) :
    (reset_stale q).all (fun x => x._sent || !x._sending) = true
      ∧ send_message s m channel (some k)
          = (connection_error
               { s with writes := s.writes ++ ((chunksOf d).take k).map (fun c => (channel, c)) }
               channel,
             { m with _sending := true }, none)
      ∧ send_message s m channel none
          = ({ s with writes := s.writes ++ (chunksOf d).map (fun c => (channel, c)) },
             mark_sent m, some m._total)
      ∧ ((send_pass ch2 plan s2 q2 idx sz).2.all
            (fun i => has_sent_entry (qget (send_pass ch2 plan s2 q2 idx sz).1 ch2) i))
          = true := by
  refine ⟨reset_stale_all q, send_message_fail s m channel d k hc hd hk,
    send_message_success s m channel d hc hd, ?_⟩
  rw [List.all_eq_true]
  intro i hi
  exact send_pass_sent_ids ch2 plan q2 s2 idx sz hnodup hin i hi

/-- C4 witness: the theorem applied to a concrete stale entry, a
concrete interrupted transmit and a concrete send walk. -/
theorem c4_witness :
    (reset_stale [w4_stale]).all (fun x => x._sent || !x._sending) = true
      ∧ send_message w4_state w4_msg "" (some 0)
          = (connection_error
               { w4_state with writes := w4_state.writes ++ ((chunksOf [5, 6]).take 0).map (fun c => ("", c)) }
               "",
             { w4_msg with _sending := true }, none)
      ∧ send_message w4_state w4_msg "" none
          = ({ w4_state with writes := w4_state.writes ++ (chunksOf [5, 6]).map (fun c => ("", c)) },
             mark_sent w4_msg, some w4_msg._total)
      ∧ ((send_pass "" (fun _ => none) w4_state w4_queue 0 0).2.all
            (fun i => has_sent_entry (qget (send_pass "" (fun _ => none) w4_state w4_queue 0 0).1 "") i))
          = true :=
  c4_retry_wholeness [w4_stale] w4_queue w4_state w4_state w4_msg "" "" [5, 6] 0
    (fun _ => none) 0 0 (by decide) rfl (by decide) (by decide) (by decide)

theorem send_message_raw_success (s : Client) (m : PyMsg) (channel : String)
    (hc : is_connected s channel = true) (hd : m._data = none) :
    send_message s m channel none
      = ({ s with writes := s.writes ++ (chunksOf (pack_raw m)).map (fun c => (channel, c)) },
         { m with _sending := true, _sent := true },
         some (pack_raw m).length) := by
  unfold send_message
  rw [hc]
  simp only [Bool.not_true, Bool.false_eq_true, if_false, hd]
  rw [write_chunks_none]
  rfl

theorem end_foldl_shape (chs : List String) :
    ∀ s : Client, ∃ t,
      chs.foldl (fun acc ch => (send_message acc end_msg ch none).1) s
        = { s with writes := s.writes ++ t } := by
  induction chs with
  | nil =>
    intro s
    refine ⟨[], ?_⟩
    simp
  | cons ch chs ih =>
    intro s
    obtain ⟨t1, h1⟩ := send_message_none_shape s end_msg ch
    obtain ⟨t2, h2⟩ := ih ((send_message s end_msg ch none).1)
    refine ⟨t1 ++ t2, ?_⟩
    rw [List.foldl_cons, h2, h1]
    simp

/-- C1 amended: `end` sets `expect_close` and transmits the `end` marker
for each channel directly through `send_message` — an immediate
transport write that bypasses the queue — so the queues are untouched
and already-queued messages are not flushed first by `end` itself. -/
theorem c1_amended (s : Client) (c : String) (hch : s.channels = [c])
    (hc : is_connected s c = true) :
    (end_client s).queues = s.queues
      ∧ (end_client s).expect_close = true
      ∧ (end_client s).writes = s.writes ++ [(c, pack_raw end_msg)] := by
  unfold end_client
  rw [hch]
  simp only [List.foldl_cons, List.foldl_nil]
  rw [send_message_raw_success { s with expect_close := true, channels := [c] }
    end_msg c hc rfl]
  have hck : chunksOf (pack_raw end_msg) = [pack_raw end_msg] := by decide
  rw [hck]
  unfold wait_for_close
  split <;> simp

/-- C1 amended witness: the theorem applied to the concrete connected
single-channel client holding one queued message. -/
theorem c1_amended_witness :
    (end_client c1_state).queues = c1_state.queues
      ∧ (end_client c1_state).expect_close = true
      ∧ (end_client c1_state).writes = c1_state.writes ++ [("", pack_raw end_msg)] :=
  c1_amended c1_state "" (by decide) (by decide)

theorem connection_error_regfailed (s : Client) (channel : String) :
    (connection_error s channel).events.filter is_reg_failed_event
      = s.events.filter is_reg_failed_event := by
  unfold connection_error
  split
  · rfl
  · split <;> (dsimp only; split <;> simp [is_reg_failed_event])

/-- C5 amended: `registration_failed` fires when the peer explicitly
sends a `registration_failed` record — and then only on the default
channel — but additionally, on any channel, a handshake that receives no
response at all fires `registration_failed` with reason
`No answer received.`; an unrecognized first response fires nothing,
logs an error, and leaves the handshake (and thus the channel's
registration) failed. -/
theorem c5_amended (s : Client) (w : Bool) (ch : String) (r : String)
    (f : Option Bool) (v : Option Nat) (t : Option String) (rest : List InMsg)
    (other : String) (f2 : Option Bool) (r2 : Option String) (v2 : Option Nat)
    (t2 : Option String) (rest2 : List InMsg)
    (hch : ch ≠ "")
    (h1 : other ≠ "aborted") (h2 : other ≠ "registration_failed")
    (h3 : other ≠ "registered") :
    (res_flag (on_connect s w ""
          (some (InMsg.dict (some ("registration_failed")) f (some r) v t :: rest)))
        = some false
      ∧ (res_state (on_connect s w ""
            (some (InMsg.dict (some ("registration_failed")) f (some r) v t :: rest)))).map
          (fun s1 => s1.events.filter is_reg_failed_event)
          = some (s.events.filter is_reg_failed_event ++ [Event.registration_failed r])
      ∧ (res_state (on_connect s w ""
            (some (InMsg.dict (some ("registration_failed")) f (some r) v t :: rest)))).map
          Client.registered = some s.registered)
    ∧ (res_flag (on_connect s w ch
          (some (InMsg.dict (some ("registration_failed")) f (some r) v t :: rest)))
        = some false
      ∧ (res_state (on_connect s w ch
            (some (InMsg.dict (some ("registration_failed")) f (some r) v t :: rest)))).map
          (fun s1 => s1.events.filter is_reg_failed_event)
          = some (s.events.filter is_reg_failed_event)
      ∧ (res_state (on_connect s w ch
            (some (InMsg.dict (some ("registration_failed")) f (some r) v t :: rest)))).map
          Client.registered = some s.registered)
    ∧ (res_flag (on_connect s w ch none) = some false
      ∧ (res_state (on_connect s w ch none)).map
          (fun s1 => s1.events.filter is_reg_failed_event)
          = some (s.events.filter is_reg_failed_event
              ++ [Event.registration_failed ("No answer received.")]))
    ∧ (res_flag (on_connect s w ch
          (some (InMsg.dict (some other) f2 r2 v2 t2 :: rest2))) = some false
      ∧ (res_state (on_connect s w ch
            (some (InMsg.dict (some other) f2 r2 v2 t2 :: rest2)))).map
          (fun s1 => s1.events.filter is_reg_failed_event)
          = some (s.events.filter is_reg_failed_event)
      ∧ (res_state (on_connect s w ch
            (some (InMsg.dict (some other) f2 r2 v2 t2 :: rest2)))).map
          Client.registered = some s.registered
      ∧ (res_state (on_connect s w ch
            (some (InMsg.dict (some other) f2 r2 v2 t2 :: rest2)))).map
          Client.log_errors = some (s.log_errors + 1)) := by
  obtain ⟨t0, ht0⟩ := send_message_none_shape s register_msg ""
  obtain ⟨t1, ht1⟩ := send_message_none_shape s register_msg ch
  have hcb : (ch == "") = false := by
    simp [hch]
  refine ⟨?_, ?_, ?_, ?_⟩
  · unfold on_connect
    rw [ht0]
    simp [res_flag, res_state, is_reg_failed_event, List.filter_append]
  · unfold on_connect
    rw [ht1]
    simp [hcb, res_flag, res_state]
  · unfold on_connect
    rw [ht1]
    simp [res_flag, res_state, List.filter_append, connection_error_regfailed,
      is_reg_failed_event]
  · unfold on_connect
    rw [ht1]
    have hb1 : (other == "aborted") = false := by simp [h1]
    have hb2 : (other == "registration_failed") = false := by simp [h2]
    have hb3 : (other == "registered") = false := by simp [h3]
    simp [hb1, hb2, hb3, res_flag, res_state]

/-- C5 amended witness: the theorem applied at concrete channels,
reasons and an unrecognized code. -/
theorem c5_amended_witness :
    (res_flag (on_connect (started ["", "x"]) false ""
          (some [InMsg.dict (some ("registration_failed")) none (some ("bad")) none none]))
        = some false
      ∧ (res_state (on_connect (started ["", "x"]) false ""
            (some [InMsg.dict (some ("registration_failed")) none (some ("bad")) none none]))).map
          (fun s1 => s1.events.filter is_reg_failed_event)
          = some ((started ["", "x"]).events.filter is_reg_failed_event
              ++ [Event.registration_failed ("bad")])
      ∧ (res_state (on_connect (started ["", "x"]) false ""
            (some [InMsg.dict (some ("registration_failed")) none (some ("bad")) none none]))).map
          Client.registered = some (started ["", "x"]).registered)
    ∧ (res_flag (on_connect (started ["", "x"]) false "x"
          (some [InMsg.dict (some ("registration_failed")) none (some ("bad")) none none]))
        = some false
      ∧ (res_state (on_connect (started ["", "x"]) false "x"
            (some [InMsg.dict (some ("registration_failed")) none (some ("bad")) none none]))).map
          (fun s1 => s1.events.filter is_reg_failed_event)
          = some ((started ["", "x"]).events.filter is_reg_failed_event)
      ∧ (res_state (on_connect (started ["", "x"]) false "x"
            (some [InMsg.dict (some ("registration_failed")) none (some ("bad")) none none]))).map
          Client.registered = some (started ["", "x"]).registered)
    ∧ (res_flag (on_connect (started ["", "x"]) false "x" none) = some false
      ∧ (res_state (on_connect (started ["", "x"]) false "x" none)).map
          (fun s1 => s1.events.filter is_reg_failed_event)
          = some ((started ["", "x"]).events.filter is_reg_failed_event
              ++ [Event.registration_failed ("No answer received.")]))
    ∧ (res_flag (on_connect (started ["", "x"]) false "x"
          (some [InMsg.dict (some ("mystery")) none none none none])) = some false
      ∧ (res_state (on_connect (started ["", "x"]) false "x"
            (some [InMsg.dict (some ("mystery")) none none none none]))).map
          (fun s1 => s1.events.filter is_reg_failed_event)
          = some ((started ["", "x"]).events.filter is_reg_failed_event)
      ∧ (res_state (on_connect (started ["", "x"]) false "x"
            (some [InMsg.dict (some ("mystery")) none none none none]))).map
          Client.registered = some (started ["", "x"]).registered
      ∧ (res_state (on_connect (started ["", "x"]) false "x"
            (some [InMsg.dict (some ("mystery")) none none none none]))).map
          Client.log_errors = some ((started ["", "x"]).log_errors + 1)) :=
  c5_amended (started ["", "x"]) false "x" "bad" none none none []
    "mystery" none none none none [] (by decide) (by decide) (by decide) (by decide)

/-- C7: a handshake whose first response record carries code `aborted`
reports failure, leaves the client's `active` flag false, and fires the
`aborted` event exactly once — and only when the channel is the primary
(empty-string) one; moreover, from any inactive client state the writer
loop makes no state change whatsoever for any fuel (in particular it
performs no connect attempt and no transport write), so once `active` is
false no reconnect ever occurs. -/
theorem c7_terminal_abort (s s2 : Client) (w : Bool) (channel ch2 : String)
    (f : Option Bool) (r : Option String) (v : Option Nat) (t : Option String)
    (rest : List InMsg) (fuel iter : Nat) (plans : Nat → Nat → Option Nat)
    (outcomes : Nat → ConnectOutcome)
    (h2 : s2.active = false) :
    res_flag (on_connect s w channel
        (some (InMsg.dict (some ("aborted")) f r v t :: rest))) = some false
      ∧ (res_state (on_connect s w channel
            (some (InMsg.dict (some ("aborted")) f r v t :: rest)))).map Client.active
          = some false
      ∧ (res_state (on_connect s w channel
            (some (InMsg.dict (some ("aborted")) f r v t :: rest)))).map
          (fun s1 => s1.events.count Event.aborted)
          = some (s.events.count Event.aborted + (if channel = "" then 1 else 0))
      ∧ res_state (thread_write_run fuel s2 ch2 plans outcomes iter) = some s2 := by
  obtain ⟨t0, ht0⟩ := send_message_none_shape s register_msg channel
  refine ⟨?_, ?_, ?_, ?_⟩
  · unfold on_connect
    rw [ht0]
    simp [res_flag]
  · unfold on_connect
    rw [ht0]
    by_cases hc : channel = "" <;> simp [hc, res_state]
  · unfold on_connect
    rw [ht0]
    by_cases hc : channel = ""
    · simp [hc, res_state, List.count_append]
    · have hcb : (channel == "") = false := by simp [hc]
      simp [hc, hcb, res_state]
  · cases fuel with
    | zero => simp [thread_write_run, res_state]
    | succ fl => simp [thread_write_run, h2, res_state]

/-- C7 witness: the theorem applied to the concrete started client, an
aborted handshake on the primary channel, and a concrete inactive run. -/
theorem c7_witness :
    res_flag (on_connect (started [""]) false ""
        (some (InMsg.dict (some ("aborted")) none none none none :: []))) = some false
      ∧ (res_state (on_connect (started [""]) false ""
            (some (InMsg.dict (some ("aborted")) none none none none :: [])))).map
          Client.active = some false
      ∧ (res_state (on_connect (started [""]) false ""
            (some (InMsg.dict (some ("aborted")) none none none none :: [])))).map
          (fun s1 => s1.events.count Event.aborted)
          = some ((started [""]).events.count Event.aborted + (if ("" : String) = "" then 1 else 0))
      ∧ res_state (thread_write_run 7 { started [""] with active := false } ""
            (fun _ _ => none) (fun _ => ConnectOutcome.openFail) 0)
          = some { started [""] with active := false } :=
  c7_terminal_abort (started [""]) { started [""] with active := false } false "" ""
    none none none none [] 7 0 (fun _ _ => none) (fun _ => ConnectOutcome.openFail)
    (by decide)

theorem first_stop_cons (m : InMsg) (rest : List InMsg) :
    first_stop_force (m :: rest)
      = match stop_force m with
        | some f => some f
        | none => first_stop_force rest := by
  unfold first_stop_force
  rw [List.findSome?]
  cases stop_force m <;> rfl

theorem first_stop_append (l1 l2 : List InMsg) :
    first_stop_force (l1 ++ l2)
      = match first_stop_force l1 with
        | some f => some f
        | none => first_stop_force l2 := by
  unfold first_stop_force
  simp only [List.findSome?_append]
  cases List.findSome? stop_force l1 <;> rfl

theorem hmb_stopped (msgs : List InMsg) :
    ∀ s : Client, s.external_stopped = true →
      handle_messages_base s msgs = Except.ok s := by
  induction msgs with
  | nil => intro s h; rfl
  | cons m rest ih =>
    intro s h
    cases m with
    | nondict => rw [handle_messages_base]; exact ih s h
    | dict a force r v t =>
      cases a with
      | none => rw [handle_messages_base]; exact ih s h
      | some code =>
        rw [handle_messages_base]
        simp only [h, Bool.not_true, Bool.false_and, Bool.false_eq_true, if_false]
        exact ih s h

theorem hmb_spec (msgs : List InMsg) :
    ∀ s : Client, s.external_stopped = false →
      (∀ m ∈ msgs, stop_force_ok m = true) →
      ∃ s1, handle_messages_base s msgs = Except.ok s1
        ∧ s1.events.filter is_stop_event
            = s.events.filter is_stop_event
              ++ (match first_stop_force msgs with
                  | some f => [Event.stop f]
                  | none => [])
        ∧ s1.external_stopped = (first_stop_force msgs).isSome := by
  induction msgs with
  | nil =>
    intro s h _
    refine ⟨s, rfl, ?_, ?_⟩
    · simp [first_stop_force]
    · simp [first_stop_force, h]
  | cons m rest ih =>
    intro s h hok
    cases m with
    | nondict =>
      obtain ⟨s1, he, hf, hx⟩ := ih s h (fun x hx => hok x (by simp [hx]))
      refine ⟨s1, ?_, ?_, ?_⟩
      · rw [handle_messages_base]; exact he
      · rw [first_stop_cons]; simpa [stop_force] using hf
      · rw [first_stop_cons]; simpa [stop_force] using hx
    | dict a force r v t =>
      cases a with
      | none =>
        obtain ⟨s1, he, hf, hx⟩ := ih s h (fun x hx => hok x (by simp [hx]))
        refine ⟨s1, ?_, ?_, ?_⟩
        · rw [handle_messages_base]; exact he
        · rw [first_stop_cons]; simpa [stop_force] using hf
        · rw [first_stop_cons]; simpa [stop_force] using hx
      | some code =>
        by_cases hcode : code = "stop"
        · subst hcode
          have hfs : force.isSome = true := by
            have := hok (InMsg.dict (some ("stop")) force r v t) (by simp)
            simpa [stop_force_ok] using this
          cases force with
          | none => simp at hfs
          | some fv =>
            refine ⟨{ s with external_stopped := true, events := s.events ++ [Event.stop fv] }, ?_, ?_, ?_⟩
            · rw [handle_messages_base]
              simp only [h, Bool.not_false, Bool.true_and, beq_self_eq_true, if_true]
              exact hmb_stopped rest _ rfl
            · rw [first_stop_cons]
              simp [stop_force, List.filter_append, is_stop_event]
            · rw [first_stop_cons]
              simp [stop_force]
        · have hcb : (code == "stop") = false := by simp [hcode]
          obtain ⟨s1, he, hf, hx⟩ := ih s h (fun x hx => hok x (by simp [hx]))
          refine ⟨s1, ?_, ?_, ?_⟩
          · rw [handle_messages_base]
            simp only [hcb, Bool.and_false, Bool.false_eq_true, if_false]
            exact he
          · rw [first_stop_cons]; simpa [stop_force, hcb] using hf
          · rw [first_stop_cons]; simpa [stop_force, hcb] using hx

theorem handle_batches_cons_ok (s s1 : Client) (b : List InMsg)
    (rest : List (List InMsg))
    (he : handle_messages_base s b = Except.ok s1) :
    handle_batches s (b :: rest) = handle_batches s1 rest := by
  rw [handle_batches, he]

theorem hb_stopped (bs : List (List InMsg)) :
    ∀ s : Client, s.external_stopped = true →
      handle_batches s bs = Except.ok s := by
  induction bs with
  | nil => intro s h; rfl
  | cons b rest ih =>
    intro s h
    rw [handle_batches_cons_ok s s b rest (hmb_stopped b s h)]
    exact ih s h

/-- C8: across any sequence of decoded batches fed to the base dispatch
from a state with no external stop recorded (every stop record carrying
its `force` field), the run succeeds, exactly the first stop record (if
any) fires a `stop` event — with that record's `force` value — and every
later stop record in the same or a subsequent batch fires nothing; the
`external_stopped` flag afterwards records whether a stop was seen, so at
most one `stop` event is fired across the whole run. -/
theorem c8_stop_fired_once (bs : List (List InMsg)) :
    ∀ s : Client, s.external_stopped = false →
      (∀ m ∈ bs.flatten, stop_force_ok m = true) →
      (hm_state (handle_batches s bs)).map (fun s1 => s1.events.filter is_stop_event)
          = some (s.events.filter is_stop_event
              ++ (match first_stop_force bs.flatten with
                  | some f => [Event.stop f]
                  | none => []))
        ∧ (hm_state (handle_batches s bs)).map Client.external_stopped
            = some (first_stop_force bs.flatten).isSome := by
  induction bs with
  | nil =>
    intro s h _
    constructor
    · simp [handle_batches, hm_state, first_stop_force]
    · simp [handle_batches, hm_state, first_stop_force, h]
  | cons b rest ih =>
    intro s h hok
    have hokb : ∀ m ∈ b, stop_force_ok m = true := by
      intro x hx
      refine hok x ?_
      rw [List.flatten_cons]
      exact List.mem_append.mpr (Or.inl hx)
    obtain ⟨s1, he, hf, hx⟩ := hmb_spec b s h hokb
    rw [List.flatten_cons, first_stop_append]
    cases hfb : first_stop_force b with
    | some fv =>
      rw [hfb] at hf hx
      have hstop : s1.external_stopped = true := by simpa using hx
      constructor
      · rw [handle_batches_cons_ok s s1 b rest he, hb_stopped rest s1 hstop]
        simp [hm_state, hf]
      · rw [handle_batches_cons_ok s s1 b rest he, hb_stopped rest s1 hstop]
        simp [hm_state, hstop]
    | none =>
      rw [hfb] at hf hx
      have hnostop : s1.external_stopped = false := by simpa using hx
      have hokr : ∀ m ∈ rest.flatten, stop_force_ok m = true := by
        intro x hx2
        refine hok x ?_
        rw [List.flatten_cons]
        exact List.mem_append.mpr (Or.inr hx2)
      obtain ⟨ih1, ih2⟩ := ih s1 hnostop hokr
      constructor
      · rw [handle_batches_cons_ok s s1 b rest he, ih1]
        simp [hf]
      · rw [handle_batches_cons_ok s s1 b rest he, ih2]

/-- C8 witness: two batches, a first stop with `force = true` and a later
duplicate stop; exactly one `stop` event fires, with force `true`. -/
theorem c8_witness :
    (hm_state (handle_batches (started [""])
          [[InMsg.dict (some ("stop")) (some true) none none none],
           [InMsg.dict (some ("stop")) (some false) none none none]])).map
        (fun s1 => s1.events.filter is_stop_event)
        = some ((started [""]).events.filter is_stop_event
            ++ (match first_stop_force
                  ([[InMsg.dict (some ("stop")) (some true) none none none],
                    [InMsg.dict (some ("stop")) (some false) none none none]] :
                      List (List InMsg)).flatten with
                | some f => [Event.stop f]
                | none => []))
      ∧ (hm_state (handle_batches (started [""])
            [[InMsg.dict (some ("stop")) (some true) none none none],
             [InMsg.dict (some ("stop")) (some false) none none none]])).map
          Client.external_stopped
          = some (first_stop_force
              ([[InMsg.dict (some ("stop")) (some true) none none none],
                [InMsg.dict (some ("stop")) (some false) none none none]] :
                  List (List InMsg)).flatten).isSome :=
  c8_stop_fired_once
    [[InMsg.dict (some ("stop")) (some true) none none none],
     [InMsg.dict (some ("stop")) (some false) none none none]]
    (started [""]) (by decide) (by decide)

theorem cap_take_append (q : List PyMsg) :
    ∀ sz, cap_take sz q ++ q.drop (cap_take sz q).length = q := by
  induction q with
  | nil => intro sz; rfl
  | cons m rest ih =>
    intro sz
    rw [cap_take]
    split
    · simp
    · simp only [List.length_cons, List.drop_succ_cons, List.cons_append,
        List.cons.injEq, true_and]
      exact ih (sz + m._total)

theorem cap_take_ne_nil (m : PyMsg) (rest : List PyMsg) (sz : Nat) :
    cap_take sz (m :: rest) ≠ [] := by
  rw [cap_take]
  split <;> simp

theorem cap_take_all (q : List PyMsg) :
    ∀ sz, sz + sum_totals q ≤ 1024 * 1024 → cap_take sz q = q := by
  induction q with
  | nil => intro sz _; rfl
  | cons m rest ih =>
    intro sz hsum
    rw [sum_totals, List.map_cons, List.sum_cons] at hsum
    rw [cap_take]
    rw [if_neg (by omega)]
    have h2 : sz + m._total + sum_totals rest ≤ 1024 * 1024 := by
      rw [sum_totals]
      omega
    rw [ih (sz + m._total) h2]

theorem reset_stale_id (q : List PyMsg)
    (h : ∀ m ∈ q, m._sending = false) : reset_stale q = q := by
  unfold reset_stale
  conv_rhs => rw [← List.map_id q]
  refine List.map_congr_left ?_
  intro m hm
  simp [h m hm]

theorem update_msg_mid (done rest : List PyMsg) (m m1 : PyMsg)
    (hid : m1._id = m._id)
    (h1 : ∀ x ∈ done, x._id ≠ m._id) (h2 : ∀ x ∈ rest, x._id ≠ m._id) :
    update_msg (done ++ m :: rest) m1 = done ++ m1 :: rest := by
  unfold update_msg
  rw [List.map_append]
  have hdone : done.map (fun x => if x._id = m1._id then m1 else x) = done := by
    conv_rhs => rw [← List.map_id done]
    refine List.map_congr_left ?_
    intro x hx
    rw [if_neg (by rw [hid]; exact h1 x hx)]
    rfl
  have hrest : (m :: rest).map (fun x => if x._id = m1._id then m1 else x)
      = m1 :: rest := by
    rw [List.map_cons]
    rw [if_pos (by rw [hid])]
    congr 1
    conv_rhs => rw [← List.map_id rest]
    refine List.map_congr_left ?_
    intro x hx
    rw [if_neg (by rw [hid]; exact h2 x hx)]
    rfl
  rw [hdone, hrest]

theorem send_pass_spec (channel : String) :
    ∀ (q : List PyMsg) (s : Client) (done : List PyMsg) (idx sz : Nat),
      is_connected s channel = true → is_registered s channel = true →
      qget s channel = done ++ q →
      (∀ m ∈ q, m._sending = false ∧ m._sent = false) →
      (∀ m ∈ q, m._data.isSome = true) →
      (∀ m ∈ q, ∀ m2 ∈ done, m2._id ≠ m._id) →
      (q.map PyMsg._id).Nodup →
      ∃ s2,
        send_pass channel (fun _ => none) s q idx sz
            = (s2, (cap_take sz q).map PyMsg._id)
          ∧ s2.writes = s.writes ++ ((cap_take sz q).map (chunk_writes channel)).flatten
          ∧ qget s2 channel
              = done ++ (cap_take sz q).map mark_sent ++ q.drop (cap_take sz q).length
          ∧ s2.connected = s.connected ∧ s2.registered = s.registered
          ∧ s2.active = s.active ∧ s2.online = s.online
          ∧ s2.stop_on_empty_queue = s.stop_on_empty_queue
          ∧ s2.expect_close = s.expect_close
          ∧ s2.channels = s.channels := by
  intro q
  induction q with
  | nil =>
    intro s done idx sz _ _ hq _ _ _ _
    refine ⟨s, ?_, ?_, ?_, rfl, rfl, rfl, rfl, rfl, rfl, rfl⟩
    · simp [send_pass, cap_take]
    · simp [cap_take]
    · simpa [cap_take] using hq
  | cons m rest ih =>
    intro s done idx sz hc hr hq hflags hdata hdisj hnodup
    have hcr : (is_connected s channel && is_registered s channel) = true := by
      simp [hc, hr]
    have hfm := hflags m (by simp)
    have he : (!m._sending && !m._sent) = true := by
      simp [hfm.1, hfm.2]
    obtain ⟨d, hd⟩ := Option.isSome_iff_exists.mp (hdata m (by simp))
    have hsm := send_message_success s m channel d hc hd
    have hnotrest : ∀ x ∈ rest, x._id ≠ m._id := by
      intro x hx hcon
      simp only [List.map_cons, List.nodup_cons] at hnodup
      exact hnodup.1 (hcon ▸ List.mem_map_of_mem PyMsg._id hx)
    have hq1 : qget { s with
        writes := s.writes ++ (chunksOf d).map (fun c => (channel, c)) } channel
          = done ++ m :: rest := hq
    have hupd : update_msg (done ++ m :: rest) (mark_sent m) = done ++ mark_sent m :: rest :=
      update_msg_mid done rest m (mark_sent m) rfl
        (fun x hx => hdisj m (by simp) x hx) hnotrest
    have hdg : chunk_writes channel m = (chunksOf d).map (fun c => (channel, c)) := by
      unfold chunk_writes
      rw [hd]
      rfl
    by_cases hcap : sz + m._total > 1024 * 1024
    · rw [send_pass_cap channel (fun _ => none) s m rest idx sz _ _ _ hcr he hsm hcap]
      rw [cap_take, if_pos hcap]
      refine ⟨_, rfl, ?_, ?_, rfl, rfl, rfl, rfl, rfl, rfl, rfl⟩
      · simp [hdg]
      · rw [qget_set_queue, hq1, hupd]
        simp
    · rw [send_pass_cont channel (fun _ => none) s m rest idx sz _ _ _ hcr he hsm hcap]
      rw [cap_take, if_neg hcap]
      have hq2 : qget { { s with
          writes := s.writes ++ (chunksOf d).map (fun c => (channel, c)) } with
            queues := dset ({ s with
              writes := s.writes ++ (chunksOf d).map (fun c => (channel, c)) } : Client).queues
              channel (update_msg (qget ({ s with
                writes := s.writes ++ (chunksOf d).map (fun c => (channel, c)) } : Client)
                channel) (mark_sent m)) } channel
          = (done ++ [mark_sent m]) ++ rest := by
        rw [qget_set_queue, hq1, hupd]
        simp
      obtain ⟨s3, heq3, hw3, hq3, hc3, hr3, ha3, ho3, hs3, he3, hch3⟩ :=
        ih _ (done ++ [mark_sent m]) (idx + 1) (sz + m._total)
          (by simpa [is_connected] using hc) (by simpa [is_registered] using hr)
          hq2
          (fun x hx => hflags x (by simp [hx]))
          (fun x hx => hdata x (by simp [hx]))
          (by
            intro x hx m2 hm2
            rcases List.mem_append.mp hm2 with hm2 | hm2
            · exact hdisj x (by simp [hx]) m2 hm2
            · have hm2e : m2 = mark_sent m := by simpa using hm2
              rw [hm2e]
              exact fun hcon => hnotrest x hx hcon.symm)
          (by
            simp only [List.map_cons, List.nodup_cons] at hnodup
            exact hnodup.2)
      rw [heq3]
      refine ⟨s3, rfl, ?_, ?_, by rw [hc3], by rw [hr3], by rw [ha3], by rw [ho3],
        by rw [hs3], by rw [he3], by rw [hch3]⟩
      · rw [hw3]
        simp [hdg, List.append_assoc]
      · rw [hq3]
        simp [List.append_assoc]

theorem writer_iteration_spec (channel : String) (q : List PyMsg) (s : Client)
    (hc : is_connected s channel = true) (hr : is_registered s channel = true)
    (hq : qget s channel = q)
    (hflags : ∀ m ∈ q, m._sending = false ∧ m._sent = false)
    (hdata : ∀ m ∈ q, m._data.isSome = true)
    (hnodup : (q.map PyMsg._id).Nodup) :
    ∃ s2,
      writer_iteration s channel (fun _ => none) = (s2, s.stop_on_empty_queue)
        ∧ s2.writes = s.writes ++ ((cap_take 0 q).map (chunk_writes channel)).flatten
        ∧ qget s2 channel = q.drop (cap_take 0 q).length
        ∧ s2.connected = s.connected ∧ s2.registered = s.registered
        ∧ s2.active = s.active ∧ s2.online = s.online
        ∧ s2.stop_on_empty_queue = s.stop_on_empty_queue
        ∧ s2.expect_close = s.expect_close
        ∧ s2.channels = s.channels := by
  have hreset : reset_stale (qget s channel) = q := by
    rw [hq]
    exact reset_stale_id q (fun m hm => (hflags m hm).1)
  obtain ⟨s2, heq, hw, hq2, hc2, hr2, ha2, ho2, hs2, he2, hch2⟩ :=
    send_pass_spec channel q { s with queues := dset s.queues channel q } [] 0 0
      hc hr (by rw [qget_set_queue]; simp) hflags hdata (by simp) hnodup
  have hqs : q.map PyMsg._id
      = (cap_take 0 q).map PyMsg._id
        ++ (q.drop (cap_take 0 q).length).map PyMsg._id := by
    conv_lhs => rw [← cap_take_append q 0]
    rw [List.map_append]
  have hdisj2 : ∀ x ∈ (q.drop (cap_take 0 q).length).map PyMsg._id,
      x ∉ (cap_take 0 q).map PyMsg._id := by
    rw [hqs] at hnodup
    rw [List.nodup_append] at hnodup
    intro x hx hmem
    exact hnodup.2.2 hmem hx
  have hfilter : (((cap_take 0 q).map mark_sent ++ q.drop (cap_take 0 q).length).filter
      (fun m => !(((cap_take 0 q).map PyMsg._id).contains m._id)))
        = q.drop (cap_take 0 q).length := by
    rw [List.filter_append]
    have h1 : (((cap_take 0 q).map mark_sent).filter
        (fun m => !(((cap_take 0 q).map PyMsg._id).contains m._id))) = [] := by
      rw [List.filter_eq_nil_iff]
      intro x hx
      rcases List.mem_map.mp hx with ⟨y, hy, rfl⟩
      have hmem0 := List.mem_map_of_mem PyMsg._id hy
      have hmem : (mark_sent y)._id ∈ (cap_take 0 q).map PyMsg._id := hmem0
      simp [hmem]
    have h2 : ((q.drop (cap_take 0 q).length).filter
        (fun m => !(((cap_take 0 q).map PyMsg._id).contains m._id)))
          = q.drop (cap_take 0 q).length := by
      rw [List.filter_eq_self]
      intro x hx
      have hnotin : x._id ∉ (cap_take 0 q).map PyMsg._id :=
        hdisj2 x._id (List.mem_map_of_mem PyMsg._id hx)
      simp [hnotin]
    rw [h1, h2, List.nil_append]
  unfold writer_iteration
  dsimp only
  rw [hreset, heq]
  refine ⟨{ s2 with queues := dset s2.queues channel ((qget s2 channel).filter (fun m => !(((cap_take 0 q).map PyMsg._id).contains m._id))) }, ?_, ?_, ?_, by simp [hc2], by simp [hr2], by simp [ha2], by simp [ho2], by simp [hs2], by simp [he2], by simp [hch2]⟩
  · simp [hs2]
  · simpa using hw
  · rw [qget_set_queue, hq2]
    simpa using hfilter

theorem step_drain_exit (s : Client) (channel : String) (plan : Nat → Option Nat)
    (outcome : ConnectOutcome) (s2 : Client)
    (honl : s.online = true)
    (hcr : (is_connected s channel && is_registered s channel) = true)
    (hwi : writer_iteration s channel plan = (s2, true)) :
    thread_write_step s channel plan outcome = Except.ok (s2, true) := by
  unfold thread_write_step
  simp [honl, hcr, hwi]

theorem step_continue (s : Client) (channel : String) (plan : Nat → Option Nat)
    (outcome : ConnectOutcome) (s2 : Client)
    (honl : s.online = true)
    (hcr : (is_connected s channel && is_registered s channel) = true)
    (hwi : writer_iteration s channel plan = (s2, false))
    (hconn2 : is_connected s2 channel = true) :
    thread_write_step s channel plan outcome = Except.ok (s2, false) := by
  unfold thread_write_step
  simp [honl, hcr, hwi, hconn2]

theorem run_step_return (fuel : Nat) (s : Client) (channel : String)
    (plans : Nat → Nat → Option Nat) (outcomes : Nat → ConnectOutcome)
    (s2 : Client) (iter : Nat) (hact : s.active = true)
    (hstep : thread_write_step s channel (plans iter) (outcomes iter)
      = Except.ok (s2, true)) :
    thread_write_run (fuel + 1) s channel plans outcomes iter
      = Except.ok (s2, true) := by
  rw [thread_write_run]
  simp [hact, hstep]

theorem run_step_continue (fuel : Nat) (s : Client) (channel : String)
    (plans : Nat → Nat → Option Nat) (outcomes : Nat → ConnectOutcome)
    (s2 : Client) (iter : Nat) (hact : s.active = true)
    (hstep : thread_write_step s channel (plans iter) (outcomes iter)
      = Except.ok (s2, false)) :
    thread_write_run (fuel + 1) s channel plans outcomes iter
      = thread_write_run fuel s2 channel plans outcomes (iter + 1) := by
  rw [thread_write_run]
  simp [hact, hstep]

/-- C3 amended: once `stop_on_empty_queue` is set, the writer returns at
the end of its next completed connected iteration; when every
transmission succeeds and the queued payloads total at most the 1 MiB
per-iteration soft cap, the queue is empty at that exit; and every
`send` call made while drain is requested is a no-op that enqueues
nothing. -/
theorem c3_amended (s s3 : Client) (channel ch2 : String) (q : List PyMsg)
    (fuel : Nat) (outcomes : Nat → ConnectOutcome) (d : Bytes)
    (hstop : s.stop_on_empty_queue = true) (hact : s.active = true)
    (honl : s.online = true)
    (hc : is_connected s channel = true) (hr : is_registered s channel = true)
    (hq : qget s channel = q)
    (hflags : ∀ m ∈ q, m._sending = false ∧ m._sent = false)
    (hdata : ∀ m ∈ q, m._data.isSome = true)
    (hnodup : (q.map PyMsg._id).Nodup)
    (hsum : sum_totals q ≤ 1024 * 1024)
    (hstop3 : s3.stop_on_empty_queue = true) :
    res_flag (thread_write_run (fuel + 1) s channel (fun _ _ => none) outcomes 0)
        = some true
      ∧ (res_state (thread_write_run (fuel + 1) s channel (fun _ _ => none) outcomes 0)).map
          (fun s1 => qget s1 channel) = some []
      ∧ send s3 d ch2 = s3 := by
  obtain ⟨s2, hwi, hw, hq2, _, _, _, _, hs2, _, _⟩ :=
    writer_iteration_spec channel q s hc hr hq hflags hdata hnodup
  have hcap : cap_take 0 q = q := cap_take_all q 0 (by simpa using hsum)
  have hq2e : qget s2 channel = [] := by
    rw [hq2, hcap, List.drop_length]
  have hcr : (is_connected s channel && is_registered s channel) = true := by
    simp [hc, hr]
  rw [hstop] at hwi
  have hrun := run_step_return fuel s channel (fun _ _ => none) outcomes s2 0 hact
    (step_drain_exit s channel _ _ s2 honl hcr hwi)
  rw [hrun]
  refine ⟨rfl, ?_, ?_⟩
  · simp [res_state, hq2e]
  · unfold send
    by_cases h1 : (!(s3.active && s3.online)) = true
    · rw [if_pos h1]
    · rw [if_neg h1, if_pos hstop3]

/-- C3 amended witness: two small messages, drain requested, one
iteration of the writer empties the queue and exits; a send afterwards
is a no-op. -/
theorem c3_amended_witness :
    res_flag (thread_write_run 1 c3_small_state ""
          (fun _ _ => none) (fun _ => ConnectOutcome.openFail) 0) = some true
      ∧ (res_state (thread_write_run 1 c3_small_state ""
            (fun _ _ => none) (fun _ => ConnectOutcome.openFail) 0)).map
          (fun s1 => qget s1 "") = some []
      ∧ send c3_small_state [9] "x" = c3_small_state :=
  c3_amended c3_small_state c3_small_state "" "x"
    [{ _id := 1, typ := none, _data := some [1, 2], _total := 2 },
     { _id := 2, typ := none, _data := some [3], _total := 1 }]
    0 (fun _ => ConnectOutcome.openFail) [9]
    (by decide) (by decide) (by decide) (by decide) (by decide) (by decide)
    (by decide) (by decide) (by decide) (by decide) (by decide)

/-- C3 counterexample: with a 1 MiB + 1 byte message and a second
message queued and drain requested, the writer transmits the big
message, hits the soft cap, and exits with the second message still
queued — so the writer terminates while its queue is not empty,
falsifying the claim for backlogs over 1 MiB. -/
theorem c3_counterexample :
    res_flag c3_run = some true
      ∧ (res_state c3_run).map (fun s1 => qget s1 "") = some [small_msg]
      ∧ [small_msg] ≠ ([] : List PyMsg) := by
  have hq : qget c3_state "" = [big_msg, small_msg] := rfl
  obtain ⟨s2, hwi, hw, hq2, _, _, _, _, hs2, _, _⟩ :=
    writer_iteration_spec "" [big_msg, small_msg] c3_state (by decide) (by decide)
      hq (by decide) (by decide) (by decide)
  have hcap : cap_take 0 [big_msg, small_msg] = [big_msg] := by
    rw [cap_take]
    rw [if_pos (by norm_num [big_msg])]
  have hq2e : qget s2 "" = [small_msg] := by
    rw [hq2, hcap]
    rfl
  have hstopc : c3_state.stop_on_empty_queue = true := by decide
  rw [hstopc] at hwi
  have hcr : (is_connected c3_state "" && is_registered c3_state "") = true := by
    decide
  have hrun := run_step_return 0 c3_state "" (fun _ _ => none)
    (fun _ => ConnectOutcome.openFail) s2 0 (by decide)
    (step_drain_exit c3_state "" _ _ s2 (by decide) hcr hwi)
  have hc3run : c3_run = Except.ok (s2, true) := hrun
  rw [hc3run]
  refine ⟨rfl, ?_, by simp⟩
  simp [res_state, hq2e]

theorem send_all_spec (channel : String) :
    ∀ (ds : List Bytes) (s : Client),
      s.active = true → s.online = true → s.stop_on_empty_queue = false →
      ∃ s1, send_all s ds channel = s1
        ∧ qget s1 channel = qget s channel ++ built_msgs s.message_id ds
        ∧ s1.active = s.active ∧ s1.online = s.online
        ∧ s1.stop_on_empty_queue = s.stop_on_empty_queue
        ∧ s1.connected = s.connected ∧ s1.registered = s.registered
        ∧ s1.expect_close = s.expect_close
        ∧ s1.writes = s.writes
        ∧ s1.message_id = s.message_id + ds.length := by
  intro ds
  induction ds with
  | nil =>
    intro s _ _ _
    exact ⟨s, rfl, by simp [built_msgs], rfl, rfl, rfl, rfl, rfl, rfl, rfl,
      by simp⟩
  | cons d ds ih =>
    intro s hact honl hstop
    have hsend : send s d channel
        = { s with message_id := s.message_id + 1,
                   queues := dset s.queues channel (qget s channel ++ [{ _id := s.message_id + 1, typ := none, _data := some d, _total := d.length }]) } := by
      unfold send
      rw [if_neg (by simp [hact, honl]), if_neg (by simp [hstop])]
    obtain ⟨s1, he1, hq1, ha1, ho1, hs1, hc1, hr1, hx1, hw1, hm1⟩ :=
      ih (send s d channel) (by rw [hsend]; exact hact) (by rw [hsend]; exact honl)
        (by rw [hsend]; exact hstop)
    refine ⟨s1, ?_, ?_, ?_, ?_, ?_, ?_, ?_, ?_, ?_, ?_⟩
    · rw [send_all, List.foldl_cons]
      rw [← send_all]
      exact he1
    · rw [hq1, hsend]
      unfold qget
      dsimp only
      rw [dget_dset_self]
      rw [built_msgs]
      simp
    · rw [ha1, hsend]
    · rw [ho1, hsend]
    · rw [hs1, hsend]
    · rw [hc1, hsend]
    · rw [hr1, hsend]
    · rw [hx1, hsend]
    · rw [hw1, hsend]
    · rw [hm1, hsend]
      simp only [List.length_cons]
      omega

theorem built_length (ds : List Bytes) :
    ∀ base, (built_msgs base ds).length = ds.length := by
  induction ds with
  | nil => intro base; rfl
  | cons d ds ih =>
    intro base
    rw [built_msgs, List.length_cons, List.length_cons, ih (base + 1)]

theorem built_ids_gt (ds : List Bytes) :
    ∀ base, ∀ m ∈ built_msgs base ds, base < m._id := by
  induction ds with
  | nil => intro base m hm; simp [built_msgs] at hm
  | cons d ds ih =>
    intro base m hm
    rw [built_msgs] at hm
    rcases List.mem_cons.mp hm with h | h
    · rw [h]
      exact Nat.lt_succ_self base
    · have h2 := ih (base + 1) m h
      omega

theorem built_pairwise (ds : List Bytes) :
    ∀ base, List.Pairwise (fun a b => PyMsg._id a < PyMsg._id b)
      (built_msgs base ds) := by
  induction ds with
  | nil => intro base; exact List.Pairwise.nil
  | cons d ds ih =>
    intro base
    rw [built_msgs]
    refine List.pairwise_cons.mpr ⟨?_, ih (base + 1)⟩
    intro m hm
    have h2 := built_ids_gt ds (base + 1) m hm
    simpa using h2

theorem built_nodup (ds : List Bytes) (base : Nat) :
    ((built_msgs base ds).map PyMsg._id).Nodup := by
  have h := built_pairwise ds base
  have h2 : List.Pairwise (fun a b => a ≠ b) ((built_msgs base ds).map PyMsg._id) := by
    rw [List.pairwise_map]
    exact h.imp (fun hlt => Nat.ne_of_lt hlt)
  exact h2

theorem built_flags (ds : List Bytes) :
    ∀ base, ∀ m ∈ built_msgs base ds,
      (m._sending = false ∧ m._sent = false) ∧ m._data.isSome = true := by
  induction ds with
  | nil => intro base m hm; simp [built_msgs] at hm
  | cons d ds ih =>
    intro base m hm
    rw [built_msgs] at hm
    rcases List.mem_cons.mp hm with h | h
    · rw [h]
      exact ⟨⟨rfl, rfl⟩, rfl⟩
    · exact ih (base + 1) m h

theorem built_data (ds : List Bytes) :
    ∀ base, (built_msgs base ds).map PyMsg._data = ds.map some := by
  induction ds with
  | nil => intro base; rfl
  | cons d ds ih =>
    intro base
    rw [built_msgs, List.map_cons, List.map_cons, ih (base + 1)]

theorem drain_run_spec (channel : String) (outcomes : Nat → ConnectOutcome) :
    ∀ (fuel : Nat) (q : List PyMsg) (s : Client) (iter : Nat),
      q.length ≤ fuel →
      s.active = true → s.online = true → s.stop_on_empty_queue = false →
      is_connected s channel = true → is_registered s channel = true →
      qget s channel = q →
      (∀ m ∈ q, m._sending = false ∧ m._sent = false) →
      (∀ m ∈ q, m._data.isSome = true) →
      (q.map PyMsg._id).Nodup →
      ∃ s2, thread_write_run fuel s channel (fun _ _ => none) outcomes iter
          = Except.ok (s2, false)
        ∧ s2.writes = s.writes ++ (q.map (chunk_writes channel)).flatten
        ∧ qget s2 channel = [] := by
  intro fuel
  induction fuel with
  | zero =>
    intro q s iter hlen _ _ _ _ _ hq _ _ _
    have hq0 : q = [] := List.eq_nil_of_length_eq_zero (Nat.le_zero.mp hlen)
    subst hq0
    exact ⟨s, rfl, by simp, by simpa using hq⟩
  | succ f ih =>
    intro q s iter hlen hact honl hstop hc hr hq hflags hdata hnodup
    obtain ⟨s2, hwi, hw, hq2, hc2, hr2, ha2, ho2, hs2, hx2, hch2⟩ :=
      writer_iteration_spec channel q s hc hr hq hflags hdata hnodup
    rw [hstop] at hwi
    have hcr : (is_connected s channel && is_registered s channel) = true := by
      simp [hc, hr]
    have hc2e : is_connected s2 channel = true := by
      unfold is_connected at hc ⊢
      rw [hc2]
      exact hc
    have hr2e : is_registered s2 channel = true := by
      unfold is_registered at hr ⊢
      rw [hr2]
      exact hr
    have hstep := step_continue s channel _ (outcomes iter) s2 honl hcr hwi hc2e
    have hrun := run_step_continue f s channel (fun _ _ => none) outcomes s2 iter
      hact hstep
    have hlen2 : (q.drop (cap_take 0 q).length).length ≤ f := by
      cases q with
      | nil => simp
      | cons m rest =>
        have hne := cap_take_ne_nil m rest 0
        have hpos : 0 < (cap_take 0 (m :: rest)).length := List.length_pos.mpr hne
        rw [List.length_drop]
        simp only [List.length_cons] at hlen ⊢
        omega
    obtain ⟨sF, hrunF, hwF, hqF⟩ :=
      ih (q.drop (cap_take 0 q).length) s2 (iter + 1) hlen2
        (by rw [ha2]; exact hact) (by rw [ho2]; exact honl)
        (by rw [hs2]; exact hstop)
        hc2e hr2e hq2
        (fun m hm => hflags m (List.mem_of_mem_drop hm))
        (fun m hm => hdata m (List.mem_of_mem_drop hm))
        (by
          rw [List.map_drop]
          exact hnodup.sublist (List.drop_sublist _ _))
    refine ⟨sF, ?_, ?_, hqF⟩
    · rw [hrun]
      exact hrunF
    · rw [hwF, hw]
      conv_rhs => rw [← cap_take_append q 0]
      rw [List.map_append, List.flatten_append, List.append_assoc]

/-- C9: enqueuing the payloads `ds` on one channel via `send` appends at
the back of that channel's queue exactly the messages `built_msgs`, with
strictly increasing `_id` and the payloads in order; the writer loop
(no transmit failures) then walks the queue front to back and writes the
chunked payloads to the transport in exactly enqueue order, emptying the
queue.  No cross-channel ordering is asserted. -/
theorem c9_ordering (s : Client) (ds : List Bytes) (channel : String)
    (fuel : Nat) (outcomes : Nat → ConnectOutcome)
    (hact : s.active = true) (honl : s.online = true)
    (hstop : s.stop_on_empty_queue = false)
    (hc : is_connected s channel = true) (hr : is_registered s channel = true)
    (hq0 : qget s channel = [])
    (hfuel : ds.length ≤ fuel) :
    qget (send_all s ds channel) channel = built_msgs s.message_id ds
      ∧ List.Pairwise (fun a b => PyMsg._id a < PyMsg._id b)
          (built_msgs s.message_id ds)
      ∧ (built_msgs s.message_id ds).map PyMsg._data = ds.map some
      ∧ res_flag (thread_write_run fuel (send_all s ds channel) channel
            (fun _ _ => none) outcomes 0) = some false
      ∧ (res_state (thread_write_run fuel (send_all s ds channel) channel
            (fun _ _ => none) outcomes 0)).map Client.writes
          = some (s.writes
              ++ ((built_msgs s.message_id ds).map (chunk_writes channel)).flatten)
      ∧ (res_state (thread_write_run fuel (send_all s ds channel) channel
            (fun _ _ => none) outcomes 0)).map (fun s2 => qget s2 channel)
          = some [] := by
  obtain ⟨s1, he1, hq1, ha1, ho1, hs1, hc1, hr1, hx1, hw1, hm1⟩ :=
    send_all_spec channel ds s hact honl hstop
  rw [hq0] at hq1
  rw [List.nil_append] at hq1
  have hc1e : is_connected s1 channel = true := by
    unfold is_connected at hc ⊢
    rw [hc1]
    exact hc
  have hr1e : is_registered s1 channel = true := by
    unfold is_registered at hr ⊢
    rw [hr1]
    exact hr
  have hlen : (built_msgs s.message_id ds).length ≤ fuel := by
    rw [built_length]
    exact hfuel
  obtain ⟨s2, hrun, hw2, hq2⟩ :=
    drain_run_spec channel outcomes fuel (built_msgs s.message_id ds) s1 0 hlen
      (by rw [ha1]; exact hact) (by rw [ho1]; exact honl)
      (by rw [hs1]; exact hstop)
      hc1e hr1e hq1
      (fun m hm => (built_flags ds s.message_id m hm).1)
      (fun m hm => (built_flags ds s.message_id m hm).2)
      (built_nodup ds s.message_id)
  rw [he1]
  refine ⟨hq1, built_pairwise ds s.message_id, built_data ds s.message_id,
    ?_, ?_, ?_⟩
  · rw [hrun]
    rfl
  · rw [hrun]
    simp [res_state, hw2, hw1]
  · rw [hrun]
    simp [res_state, hq2]

/-- C9 witness: two concrete payloads enqueued and drained; the
transport trace extends by their chunks in enqueue order and the queue
empties. -/
theorem c9_witness :
    qget (send_all started_conn [[1], [2, 3]] "") "" = built_msgs 0 [[1], [2, 3]]
      ∧ List.Pairwise (fun a b => PyMsg._id a < PyMsg._id b)
          (built_msgs 0 [[1], [2, 3]])
      ∧ (built_msgs 0 [[1], [2, 3]]).map PyMsg._data = [[1], [2, 3]].map some
      ∧ res_flag (thread_write_run 2 (send_all started_conn [[1], [2, 3]] "") ""
            (fun _ _ => none) (fun _ => ConnectOutcome.openFail) 0) = some false
      ∧ (res_state (thread_write_run 2 (send_all started_conn [[1], [2, 3]] "") ""
            (fun _ _ => none) (fun _ => ConnectOutcome.openFail) 0)).map Client.writes
          = some (started_conn.writes
              ++ ((built_msgs 0 [[1], [2, 3]]).map (chunk_writes "")).flatten)
      ∧ (res_state (thread_write_run 2 (send_all started_conn [[1], [2, 3]] "") ""
            (fun _ _ => none) (fun _ => ConnectOutcome.openFail) 0)).map
          (fun s2 => qget s2 "") = some [] :=
  c9_ordering started_conn [[1], [2, 3]] "" 2 (fun _ => ConnectOutcome.openFail)
    (by decide) (by decide) (by decide) (by decide) (by decide) (by decide)
    (by decide)

end Aetros
